import Mathlib

/-!
Verification of the Y4/WUT-4 toolchain core (functional simulator,
assembler, disassembler) against its specification.

The definitions below are a shallow embedding of the Go sources:

* `src/func/exec.go`  — the five pipeline stages (fetch, decode, execute,
  memory, writeback) and the per-opcode execute handlers;
* `src/func/func.go`  — the machine-state record, constants, and the main
  simulation loop `simulate`;
* `src/func/util.go`  — `bits`, `sxtImm`, `translate`, `reset`;
* `src/asm/sym.go`    — the assembler symbol table;
* `src/asm/generator.go` — the code generator;
* `src/dis/dis.go`    — the disassembler key table and `decode`.

Machine words (Go `uint16`) are embedded as `Nat` with explicit `% 65536`
wherever Go arithmetic wraps; bytes use `% 256`.  Go `panic` sites
(assertions and decode failures) are modelled by a `panicked` flag: once
set, the remaining stages of the cycle are skipped, matching the fact that
a Go panic aborts the process.
-/

namespace Y4

/-- Word modulus: Go uint16 arithmetic wraps at 2^16. -/
def M16 : Nat := 65536

/-- Constants from src/func/func.go. -/
def SprSize : Nat := 64

def IOSize : Nat := 64

def PC : Nat := 0

def Link : Nat := 1

def Irr : Nat := 2

def Icr : Nat := 3

def Imr : Nat := 4

def CCLS : Nat := 6

def CCMS : Nat := 7

def User : Nat := 0

def Kern : Nat := 1

def ExIllegal : Nat := 32

def ExMemory : Nat := 48

def ExMachine : Nat := 62

def ExNone : Nat := 0

/-- Embedding of the Go method `(w word) bits(hi, lo int) uint16` from
src/func/util.go: the bits from hi:lo inclusive.  `w >> lo` is `w / 2^lo`
and masking with `1<<(hi-lo+1) - 1` is `% 2^(hi-lo+1)`. -/
def bits (w hi lo : Nat) : Nat := (w / 2 ^ lo) % 2 ^ (hi - lo + 1)

/-- Pointwise update of a function, standing in for a Go slice store. -/
def upd (f : Nat → Nat) (i v : Nat) : Nat → Nat := fun j => if j = i then v else f j

/-- Per-mode register file (src/func/func.go `y4reg`): eight general
registers and 64 special registers. -/
structure Y4Reg where
  gen : Nat → Nat
  spr : Nat → Nat

/-- Per-mode memory (src/func/func.go `y4mem`): 64K words of code and
64K bytes of data. -/
structure Y4Mem where
  imem : Nat → Nat
  dmem : Nat → Nat

/-- Machine state (src/func/func.go `y4machine`).  The two-element Go
slices `reg` and `mem` are split into explicit user/kernel fields. -/
structure Y4Machine where
  cyc : Nat
  pc : Nat
  run : Bool
  en : Bool
  mode : Nat
  alu : Nat
  sd : Nat
  wb : Nat
  ex : Nat
  ir : Nat
  hc : Nat
  regUser : Y4Reg
  regKern : Y4Reg
  memUser : Y4Mem
  memKern : Y4Mem
  io : Nat → Nat
  op : Nat
  imm : Nat
  xop : Nat
  yop : Nat
  zop : Nat
  vop : Nat
  isXop : Bool
  isYop : Bool
  isZop : Bool
  isVop : Bool
  isBase : Bool
  ra : Nat
  rb : Nat
  rc : Nat
  panicked : Bool

/-- Go `y4.reg[m]`: mode 0 is the user file, mode 1 the kernel file.
(Go would panic for any other index; no reachable state uses one.) -/
def regOf (s : Y4Machine) (m : Nat) : Y4Reg :=
  if m = 0 then s.regUser else s.regKern

/-- Go `y4.mem[m]`. -/
def memOf (s : Y4Machine) (m : Nat) : Y4Mem :=
  if m = 0 then s.memUser else s.memKern

/-- Store into general register `i` of mode `m`. -/
def genSet (s : Y4Machine) (m i v : Nat) : Y4Machine :=
  if m = 0 then { s with regUser := { s.regUser with gen := upd s.regUser.gen i v } }
  else { s with regKern := { s.regKern with gen := upd s.regKern.gen i v } }

/-- Store into special register `i` of mode `m`. -/
def sprSet (s : Y4Machine) (m i v : Nat) : Y4Machine :=
  if m = 0 then { s with regUser := { s.regUser with spr := upd s.regUser.spr i v } }
  else { s with regKern := { s.regKern with spr := upd s.regKern.spr i v } }

/-- Store into data memory byte `i` of mode `m`. -/
def dmemSet (s : Y4Machine) (m i v : Nat) : Y4Machine :=
  if m = 0 then { s with memUser := { s.memUser with dmem := upd s.memUser.dmem i v } }
  else { s with memKern := { s.memKern with dmem := upd s.memKern.dmem i v } }

/-- Embedding of `sxtImm` from src/func/util.go: sign-extended 7- or
10-bit immediate of the current instruction. -/
def sxtImm (ir : Nat) : Nat :=
  let op := bits ir 15 13
  let neg := bits ir 12 12 ≠ 0
  if op < 6 then
    if neg then bits ir 12 6 ||| 0xFF80 else bits ir 12 6
  else if op = 6 then
    (bits ir 12 3) <<< 6
  else if op = 7 ∧ ¬neg then
    bits ir 12 6
  else 0

/-- Embedding of `fetch` from src/func/exec.go, first half: exception
delivery.  Go asserts `y4.en` here (double fault would be a panic). -/
def fetchDeliver (s : Y4Machine) : Y4Machine :=
  if s.ex ≠ 0 then
    if s.en then
      { s with
        regKern :=
          { s.regKern with
            spr := upd (upd (upd s.regKern.spr Irr s.pc) Icr s.ex) Imr s.mode },
        mode := Kern,
        pc := s.ex,
        en := false,
        ex := 0 }
    else { s with panicked := true }
  else s

/-- Embedding of `fetch` from src/func/exec.go: deliver any pending
exception, then read the code word at pc and advance pc, raising
ExMachine when pc wraps to 0. -/
def fetch (s : Y4Machine) : Y4Machine :=
  let t := fetchDeliver s
  if t.panicked then t else
  let ir := (memOf t t.mode).imem t.pc
  let pc2 := (t.pc + 1) % M16
  { t with ir := ir, pc := pc2, ex := if pc2 = 0 then ExMachine else t.ex }

/-- Embedding of `decode` from src/func/exec.go. -/
def decode (s : Y4Machine) : Y4Machine :=
  let vV := decide (bits s.ir 15 3 = 0x1FFF)
  let vZ := !vV && decide (bits s.ir 15 6 = 0x03FF)
  let vY := !vV && !vZ && decide (bits s.ir 15 9 = 0x007F)
  let vX := !vV && !vZ && !vY && decide (bits s.ir 15 12 = 0x000F)
  { s with
    op := bits s.ir 15 13,
    imm := sxtImm s.ir,
    xop := bits s.ir 11 9,
    yop := bits s.ir 8 6,
    zop := bits s.ir 5 3,
    vop := bits s.ir 2 0,
    isVop := vV,
    isZop := vZ,
    isYop := vY,
    isXop := vX,
    isBase := !vV && !vZ && !vY && !vX,
    ra := bits s.ir 2 0,
    rb := bits s.ir 5 3,
    rc := bits s.ir 8 6 }

/-- Wrapping 16-bit subtraction: Go uint16 `a - b`. -/
def wsub (a b : Nat) : Nat := (a % M16 + (M16 - b % M16)) % M16

/-- Embedding of `ldw` (execute stage) from src/func/exec.go: the
all-zero word is a deliberate illegal instruction. -/
def xLdw (s : Y4Machine) : Y4Machine :=
  if s.ir = 0 then { s with ex := ExIllegal }
  else { s with alu := ((regOf s s.mode).gen s.rb + s.imm) % M16 }

/-- Embedding of `ldb`/`stw`/`stb`/`adi`/`lsp`/`lio`/`ssp`/`sio`
execute handlers: all compute `alu := rB + imm`. -/
def xAddr (s : Y4Machine) : Y4Machine :=
  { s with alu := ((regOf s s.mode).gen s.rb + s.imm) % M16 }

/-- Embedding of `beq` from src/func/exec.go. -/
def xBeq (s : Y4Machine) : Y4Machine :=
  if (regOf s s.mode).gen s.rb = (regOf s s.mode).gen s.ra then
    { s with pc := (s.pc + s.imm) % M16 }
  else s

/-- Embedding of `lui` from src/func/exec.go. -/
def xLui (s : Y4Machine) : Y4Machine := { s with alu := s.imm }

/-- Embedding of `jlr` from src/func/exec.go: the rA field is a
sub-opcode selecting sys trap, call, or jump. -/
def xJlr (s : Y4Machine) : Y4Machine :=
  if bits s.ir 15 12 ≠ 0xE then { s with panicked := true }
  else if s.ra = 0 then
    if s.rb ≠ 0 ∨ s.imm % 2 = 1 ∨ s.imm = 0 ∨ s.imm > 30 then
      { s with ex := ExIllegal }
    else { s with ex := s.imm }
  else if s.ra = 1 then
    let t := sprSet s s.mode Link s.pc
    { t with pc := ((regOf t t.mode).gen t.rb + t.imm) % M16 }
  else if s.ra = 2 then
    { s with pc := ((regOf s s.mode).gen s.rb + s.imm) % M16 }
  else { s with ex := ExIllegal }

/-- Embedding of `alu3` from src/func/exec.go (three-operand XOPs).
Go computes `full := uint32(rs2 + rs1)` where the addition is already
uint16 and wraps, so bit 16 of `full` is always zero. -/
def xAlu3 (s : Y4Machine) : Y4Machine :=
  let rs2 := (regOf s s.mode).gen s.rc
  let rs1 := (regOf s s.mode).gen s.rb
  if s.xop = 0 then
    let full := (rs2 + rs1) % M16
    { s with alu := full &&& 0xFFFF, hc := (full &&& 0x10000) / 65536 }
  else if s.xop = 1 then
    let full := (rs2 + rs1 + s.hc) % M16
    { s with alu := full &&& 0xFFFF, hc := (full &&& 0x10000) / 65536 }
  else if s.xop = 2 then
    let full := wsub rs2 rs1
    { s with alu := full &&& 0xFFFF, hc := (full &&& 0x10000) / 65536 }
  else if s.xop = 3 then
    let full := wsub (wsub rs2 rs1) s.hc
    { s with alu := full &&& 0xFFFF, hc := (full &&& 0x10000) / 65536 }
  else if s.xop = 4 then
    { s with alu := (rs2 % M16) &&& ((rs1 % M16) ^^^ 0xFFFF), hc := 0 }
  else if s.xop = 5 then
    { s with alu := ((rs2 % M16) ||| (rs1 % M16)) &&& 0xFFFF, hc := 0 }
  else if s.xop = 6 then
    { s with alu := ((rs2 % M16) ^^^ (rs1 % M16)) &&& 0xFFFF, hc := 0 }
  else { s with panicked := true }

/-- Embedding of `alu1` from src/func/exec.go (one-operand ZOPs). -/
def xAlu1 (s : Y4Machine) : Y4Machine :=
  let rs1 := (regOf s s.mode).gen s.ra % M16
  if s.zop = 0 then
    { s with alu := rs1 ^^^ 0xFFFF, hc := 0 }
  else if s.zop = 1 then
    { s with alu := (1 + (rs1 ^^^ 0xFFFF)) % M16, hc := 0 }
  else if s.zop = 2 then
    { s with alu := (rs1 / 256) ||| ((rs1 * 256) % M16), hc := 0 }
  else if s.zop = 3 then
    { s with
      alu := if rs1 &&& 0x80 ≠ 0 then rs1 ||| 0xFF00 else rs1 &&& 0x00FF,
      hc := 0 }
  else if s.zop = 4 then
    { s with hc := rs1 &&& 1, alu := rs1 / 2 }
  else if s.zop = 5 then
    { s with hc := if rs1 &&& 0x8000 = 0 then 0 else 1, alu := (rs1 * 2) % M16 }
  else if s.zop = 6 then
    { s with hc := rs1 &&& 1, alu := (rs1 / 2) ||| (rs1 &&& 0x8000) }
  else { s with panicked := true }

/-- Embedding of the YOP execute handlers `lsp`/`lio`/`ssp`/`sio`
(address computation) and `y04`/`y05`/`y06` (reserved, illegal). -/
def xYop (s : Y4Machine) : Y4Machine :=
  if s.yop < 4 then xAddr s
  else if s.yop < 7 then { s with ex := ExIllegal }
  else { s with panicked := true }

/-- Embedding of `rti` from src/func/exec.go: privileged; restores pc
from kernel Irr (then zeroes Irr) and mode from kernel Imr. -/
def xRti (s : Y4Machine) : Y4Machine :=
  if s.mode = User then { s with ex := ExIllegal }
  else
    let t := { s with ex := 0, en := true, pc := s.regKern.spr Irr,
                      regKern := { s.regKern with spr := upd s.regKern.spr Irr 0 } }
    { t with mode := t.regKern.spr Imr % 256 }

/-- Embedding of `rtl` from src/func/exec.go. -/
def xRtl (s : Y4Machine) : Y4Machine :=
  { s with pc := (regOf s s.mode).spr Link }

/-- Embedding of `di` from src/func/exec.go: privileged. -/
def xDi (s : Y4Machine) : Y4Machine :=
  if s.mode = User then { s with ex := ExIllegal } else { s with en := false }

/-- Embedding of `ei` from src/func/exec.go: privileged. -/
def xEi (s : Y4Machine) : Y4Machine :=
  if s.mode = User then { s with ex := ExIllegal } else { s with en := true }

/-- Embedding of `hlt` from src/func/exec.go: privileged. -/
def xHlt (s : Y4Machine) : Y4Machine :=
  if s.mode = User then { s with ex := ExIllegal } else { s with run := false }

/-- Embedding of `brk` from src/func/exec.go: privileged; in kernel
mode it only dumps state (no architectural effect). -/
def xBrk (s : Y4Machine) : Y4Machine :=
  if s.mode = User then { s with ex := ExIllegal } else s

/-- Embedding of `v06` from src/func/exec.go: reserved, illegal. -/
def xV06 (s : Y4Machine) : Y4Machine := { s with ex := ExIllegal }

/-- Embedding of `die` from src/func/exec.go: illegal in both modes. -/
def xDie (s : Y4Machine) : Y4Machine :=
  if s.mode = User then { s with ex := ExIllegal } else { s with ex := ExIllegal }

/-- Dispatch table `vops` from src/func/exec.go. -/
def xVop (s : Y4Machine) : Y4Machine :=
  if s.vop = 0 then xRti s
  else if s.vop = 1 then xRtl s
  else if s.vop = 2 then xDi s
  else if s.vop = 3 then xEi s
  else if s.vop = 4 then xHlt s
  else if s.vop = 5 then xBrk s
  else if s.vop = 6 then xV06 s
  else xDie s

/-- Dispatch table `baseops` from src/func/exec.go. -/
def xBase (s : Y4Machine) : Y4Machine :=
  if s.op = 0 then xLdw s
  else if s.op = 1 then xAddr s
  else if s.op = 2 then xAddr s
  else if s.op = 3 then xAddr s
  else if s.op = 4 then xBeq s
  else if s.op = 5 then xAddr s
  else if s.op = 6 then xLui s
  else xJlr s

/-- Embedding of `execute` from src/func/exec.go: skipped when an
exception is already pending. -/
def execute (s : Y4Machine) : Y4Machine :=
  if s.ex ≠ 0 then s
  else if s.isBase then xBase s
  else if s.isXop then xAlu3 s
  else if s.isYop then xYop s
  else if s.isZop then xAlu1 s
  else if s.isVop then xVop s
  else { s with panicked := true }

/-- Embedding of `loadSpecial` from src/func/exec.go: returns the value
of the special register addressed by the ALU result, possibly raising
ExIllegal.  The fall-through of the Go switch for kernel reads of SPRs
24, 26..31 hits `assert(false, ...)`, i.e. panics. -/
def loadSpecial (s : Y4Machine) : Nat × Y4Machine :=
  let r := s.alu % SprSize
  if r = PC then (s.pc, s)
  else if r = Link then ((regOf s s.mode).spr Link, s)
  else if r = Irr ∨ r = Icr ∨ r = Imr ∨ r = 5 then
    if s.mode = Kern then ((regOf s s.mode).spr r, s)
    else (0, { s with ex := ExIllegal })
  else if r = CCLS then (s.cyc % M16, s)
  else if r = CCMS then ((s.cyc / 65536) % M16, s)
  else if s.mode = User then (0, { s with ex := ExIllegal })
  else if 8 ≤ r ∧ r < 16 then (0, s)
  else if 16 ≤ r ∧ r < 24 then (s.regUser.gen (r - 16), s)
  else if 24 ≤ r ∧ r < 31 then
    if r = 25 then (s.regUser.spr Link, s)
    else (0, { s with panicked := true })
  else if 32 ≤ r then (0, s)
  else (0, { s with panicked := true })

/-- Embedding of `loadIO` from src/func/exec.go: TODO stub returning 0. -/
def loadIo (_s : Y4Machine) : Nat := 0

/-- Embedding of `storeSpecial` from src/func/exec.go. -/
def storeSpecial (s : Y4Machine) (val : Nat) : Y4Machine :=
  let r := s.alu % SprSize
  if s.mode = User then
    if r = Link then
      { s with regUser := { s.regUser with spr := upd s.regUser.spr Link val } }
    else { s with ex := ExIllegal }
  else
    if r = Irr ∨ r = Icr ∨ r = Imr ∨ r = 5 then
      { s with regKern := { s.regKern with spr := upd s.regKern.spr r val } }
    else if 16 ≤ r ∧ r < 24 then
      { s with regUser := { s.regUser with gen := upd s.regUser.gen (r - 16) val } }
    else if r = 25 then
      { s with regUser := { s.regUser with spr := upd s.regUser.spr Link val } }
    else if 32 ≤ r then s
    else { s with ex := ExIllegal }

/-- Embedding of `storeIO` from src/func/exec.go: TODO stub, no effect. -/
def storeIo (s : Y4Machine) (_val : Nat) : Y4Machine := s

/-- Embedding of `memory` from src/func/exec.go: set wb from alu, then
perform any data-memory, special-register, or I/O access.  Data memory
is indexed directly by `alu`; the address is not translated. -/
def memoryStage (s : Y4Machine) : Y4Machine :=
  if s.ex ≠ 0 then s else
  let s := { s with wb := s.alu }
  if s.op < 4 then
    if s.op = 0 then
      { s with wb := ((memOf s s.mode).dmem s.alu |||
                      (((memOf s s.mode).dmem ((s.alu + 1) % M16)) <<< 8)) % M16 }
    else if s.op = 1 then
      { s with wb := (memOf s s.mode).dmem s.alu }
    else if s.op = 2 then
      let t := dmemSet s s.mode s.alu (s.sd &&& 0x00FF)
      dmemSet t t.mode ((t.alu + 1) % M16) ((t.sd / 256) % 256)
    else
      dmemSet s s.mode s.alu (s.sd % 256)
  else if s.isYop then
    if s.yop = 0 then
      let p := loadSpecial s
      { p.2 with wb := p.1 }
    else if s.yop = 1 then
      { s with wb := loadIo s }
    else if s.yop = 2 then
      storeSpecial s s.sd
    else if s.yop = 3 then
      storeIo s s.sd
    else s
  else s

/-- Embedding of `writeback` from src/func/exec.go: write wb to the
destination general register for result-producing instructions, unless
an exception is pending or the destination is r0. -/
def writebackStage (s : Y4Machine) : Y4Machine :=
  if s.ex ≠ 0 then s else
  if s.op = 0 ∨ s.op = 1 ∨ s.op = 5 ∨ s.op = 6 ∨ s.isXop = true ∨
     (s.isYop = true ∧ s.yop < 2) ∨ s.isZop = true then
    if s.ra ≠ 0 then genSet s s.mode s.ra s.wb else s
  else s

/-- One machine cycle: the five stages in order, as called by the body
of `simulate` in src/func/func.go. -/
def afterCycle (s : Y4Machine) : Y4Machine :=
  writebackStage (memoryStage (execute (decode (fetch s))))

/-- Embedding of the main loop of `simulate` from src/func/func.go,
with fuel.  `y4.cyc` is incremented by the for-statement before each
run-flag test; after the five stages the loop breaks when an exception
is pending while interrupts are disabled (double fault).  The
interactive-debugger branch is not modelled (a noninteractive run). -/
def simLoop : Nat → Y4Machine → Y4Machine
  | 0, s => s
  | n + 1, s =>
    let s1 := { s with cyc := s.cyc + 1 }
    if s1.run = false then s1 else
    let t := afterCycle s1
    if t.ex ≠ 0 ∧ t.en = false then t
    else simLoop n t

/-- Embedding of the halt message construction at the end of `simulate`
in src/func/func.go: the report starts with "halt" and appends the
double-fault diagnostic when an exception is pending with interrupts
disabled. -/
def haltReport (s : Y4Machine) : String :=
  if s.ex ≠ 0 ∧ s.en = false then
    "halt" ++ ": double fault: exception " ++ toString s.ex
  else "halt"

/-- Embedding of `reset` from src/func/util.go: boots in kernel mode
with interrupts disabled and kernel Imr = User. -/
def reset (s : Y4Machine) : Y4Machine :=
  { s with cyc := 0, pc := 0, run := true, mode := Kern, ex := 0, en := false,
           regKern := { s.regKern with spr := upd s.regKern.spr Imr User } }

/-- The zero register file: Go allocates the files with `make`, which
zero-fills. -/
def zeroReg : Y4Reg := { gen := fun _ => 0, spr := fun _ => 0 }

/-- The zero memory bank. -/
def zeroMem : Y4Mem := { imem := fun _ => 0, dmem := fun _ => 0 }

/-- The machine as allocated by the package-level `var y4 y4machine`
initializer in src/func/func.go: all registers, memories, and flags
zero. -/
def initMachine : Y4Machine :=
  { cyc := 0, pc := 0, run := false, en := false, mode := 0, alu := 0,
    sd := 0, wb := 0, ex := 0, ir := 0, hc := 0,
    regUser := zeroReg, regKern := zeroReg,
    memUser := zeroMem, memKern := zeroMem,
    io := fun _ => 0,
    op := 0, imm := 0, xop := 0, yop := 0, zop := 0, vop := 0,
    isXop := false, isYop := false, isZop := false, isVop := false,
    isBase := false, ra := 0, rb := 0, rc := 0, panicked := false }

/-- Modelled from the spec: the physical-memory size constant
`PhysMemSize` used by `translate` in src/func/util.go.  Its declaration
is not part of the source snapshot; the spec places the kernel region at
physical 0 and the user region at physical 3·64 KiB, with physical
memory indexed as words, giving 2 · 3·64·1024/2 = 3·64·1024 words. -/
def PhysMemSize : Nat := 3 * 64 * 1024

/-- Embedding of `translate` from src/func/util.go: virtual-to-physical
translation through the MMU registers at SPR offset 32 (code) or 48
(data) of the supplied SPR file.  Returns the exception (ExNone or
ExMemory) and the physical address.  Note the bound test is a strict
greater-than comparison. -/
def translate (spr : Nat → Nat) (isData : Bool) (virtAddr : Nat) : Nat × Nat :=
  let sprOffset := (if isData then 32 + 16 else 32) + virtAddr / 4096
  let upper := spr sprOffset &&& 0xFFF
  let lower := virtAddr &&& 0xFFF
  let result := (upper <<< 12) ||| lower
  let result := if isData then result / 2 else result
  if result > PhysMemSize then (ExMemory, result) else (ExNone, result)

/-- Go method receiver form: translate through the current mode's MMU. -/
def translateM (s : Y4Machine) (isData : Bool) (virtAddr : Nat) : Nat × Nat :=
  translate (regOf s s.mode).spr isData virtAddr

end Y4

namespace Asm

/-- Constants from src/asm/sym.go. -/
def MaxSymbols : Nat := 0x7FFE

def NoSymbol : Nat := 0x7FFF

def symDefined : Nat := 0x8000

def symNegated : Nat := 0x4000

/-- Embedding of `symbolEntry` from src/asm/sym.go. -/
structure SymbolEntry where
  flags : Nat
  value : Nat
  deriving DecidableEq

/-- Embedding of `SymbolTable` from src/asm/sym.go.  The Go
`map[string]uint16` is an association list in which the most recent
binding for a name comes first; names are only inserted when absent, so
there is at most one binding per name. -/
structure SymbolTable where
  indexes : List (String × Nat)
  entries : List SymbolEntry
  deriving DecidableEq

/-- Go map lookup `st.indexes[name]`. -/
def mapFind (l : List (String × Nat)) (name : String) : Option Nat :=
  match l.find? (fun p => p.1 == name) with
  | some p => some p.2
  | none => none

/-- Embedding of `internalCreateSymbol` from src/asm/sym.go: append a
fresh entry and bind the name to its index.  Returns (index, error,
new table). -/
def internalCreateSymbol (st : SymbolTable) (name : String) (flags value : Nat) :
    Nat × Option String × SymbolTable :=
  if st.entries.length = MaxSymbols then
    (NoSymbol, some "symbol table overflow", st)
  else
    let index := st.entries.length
    (index, none,
      { indexes := (name, index) :: st.indexes,
        entries := st.entries ++ [{ flags := flags, value := value }] })

/-- Embedding of `DefineSymbol` from src/asm/sym.go.  In the
exists-branch Go copies the entry struct into a local variable, sets the
defined flag on that copy only, and returns the looked-up index with a
nil error: the stored entry is not modified and the value argument is
dropped.  In the not-exists branch Go discards both results of
`internalCreateSymbol` and returns the zero value left in `index` by the
failed map lookup, again with a nil error. -/
def DefineSymbol (st : SymbolTable) (name : String) (value : Nat) :
    Nat × Option String × SymbolTable :=
  match mapFind st.indexes name with
  | some index =>
    let entry := st.entries.getD index { flags := 0, value := 0 }
    if entry.flags &&& symDefined ≠ 0 then
      (NoSymbol, some (name ++ " redefined"), st)
    else
      (index, none, st)
  | none =>
    let c := internalCreateSymbol st name symDefined value
    (0, none, c.2.2)

/-- Embedding of `UseSymbol` from src/asm/sym.go: look the name up,
entering it as an undefined symbol when absent. -/
def UseSymbol (st : SymbolTable) (name : String) (value : Nat) :
    Nat × Option String × SymbolTable :=
  match mapFind st.indexes name with
  | some index => (index, none, st)
  | none => internalCreateSymbol st name 0 value

/-- Embedding of `Get` from src/asm/sym.go: returns the value of a
defined symbol, or NoSymbol with an "undefined" error. -/
def Get (st : SymbolTable) (name : String) : Nat × Option String :=
  match mapFind st.indexes name with
  | none => (NoSymbol, some ("undefined: " ++ name))
  | some index =>
    let entry := st.entries.getD index { flags := 0, value := 0 }
    if entry.flags &&& symDefined = 0 then
      (NoSymbol, some ("undefined: " ++ name))
    else (entry.value, none)

/-- Embedding of `MachineInstruction` from src/asm/asm.go (field order
key, rc, rb, ra as in the Go struct). -/
structure MachineInstruction where
  key : Nat
  rc : Nat
  rb : Nat
  ra : Nat

/-- Flag from src/asm/generator.go. -/
def GeneratorDebug : Bool := false

/-- Embedding of `generate` from src/asm/generator.go.  The Go function
body is an unimplemented stub: it optionally logs "generate(): not
implemented" and returns a nil error, producing no output whatsoever.
We model the emitted binary explicitly as the (always empty) list of
code words alongside the error result. -/
def generate (_instructions : List MachineInstruction) : Except String (List Nat) :=
  Except.ok []

end Asm

namespace Dis

/-- Embedding of `KeyEntry` from src/dis/dis.go. -/
structure KeyEntry where
  name : String
  nbits : Nat
  opcode : Nat
  signature : Nat

/-- Operand-kind codes from src/dis/dis.go. -/
def X : Nat := 0

def I : Nat := 1

def J : Nat := 2

def R : Nat := 3

def S : Nat := 4

/-- Signature encodings from src/dis/dis.go. -/
def RRI : Nat := R ||| (R <<< 4) ||| (I <<< 8)

def RJX : Nat := R ||| (J <<< 4) ||| X

def RRR : Nat := R ||| (R <<< 4) ||| (R <<< 8)

def SRX : Nat := S ||| (R <<< 4) ||| X

def RRX : Nat := R ||| (R <<< 4) ||| X

def RXX : Nat := R ||| X ||| X

def XXX : Nat := X ||| X ||| X

/-- Embedding of `KeyTable` from src/dis/dis.go: the 37 mnemonics with
their recognition widths, fixed opcode bits, and signatures, in table
order (wider masks last). -/
def KeyTable : List KeyEntry := [
  { name := "ldw", nbits := 3,  opcode := 0x0000, signature := RRI },
  { name := "ldb", nbits := 3,  opcode := 0x2000, signature := RRI },
  { name := "stw", nbits := 3,  opcode := 0x4000, signature := RRI },
  { name := "stb", nbits := 3,  opcode := 0x6000, signature := RRI },
  { name := "beq", nbits := 3,  opcode := 0x8000, signature := RRI },
  { name := "adi", nbits := 3,  opcode := 0xA000, signature := RRI },
  { name := "lui", nbits := 3,  opcode := 0xC000, signature := RJX },
  { name := "jlr", nbits := 4,  opcode := 0xE000, signature := RRI },
  { name := "add", nbits := 7,  opcode := 0xF000, signature := RRR },
  { name := "adc", nbits := 7,  opcode := 0xF200, signature := RRR },
  { name := "sub", nbits := 7,  opcode := 0xF400, signature := RRR },
  { name := "sbb", nbits := 7,  opcode := 0xF600, signature := RRR },
  { name := "bic", nbits := 7,  opcode := 0xF800, signature := RRR },
  { name := "bis", nbits := 7,  opcode := 0xFA00, signature := RRR },
  { name := "xor", nbits := 7,  opcode := 0xFC00, signature := RRR },
  { name := "wrs", nbits := 10, opcode := 0xFE00, signature := SRX },
  { name := "rds", nbits := 10, opcode := 0xFE40, signature := SRX },
  { name := "lds", nbits := 10, opcode := 0xFE80, signature := SRX },
  { name := "sts", nbits := 10, opcode := 0xFEC0, signature := SRX },
  { name := "ior", nbits := 10, opcode := 0xFF00, signature := RRX },
  { name := "iow", nbits := 10, opcode := 0xFF40, signature := RRX },
  { name := "FF8", nbits := 10, opcode := 0xFF80, signature := XXX },
  { name := "not", nbits := 13, opcode := 0xFFC0, signature := RXX },
  { name := "neg", nbits := 13, opcode := 0xFFC8, signature := RXX },
  { name := "sxt", nbits := 13, opcode := 0xFFD0, signature := RXX },
  { name := "swb", nbits := 13, opcode := 0xFFD8, signature := RXX },
  { name := "lsr", nbits := 13, opcode := 0xFFE0, signature := RXX },
  { name := "lsl", nbits := 13, opcode := 0xFFE8, signature := RXX },
  { name := "asr", nbits := 13, opcode := 0xFFF0, signature := RXX },
  { name := "sys", nbits := 16, opcode := 0xFFF8, signature := XXX },
  { name := "srt", nbits := 16, opcode := 0xFFF9, signature := XXX },
  { name := "FFA", nbits := 16, opcode := 0xFFFA, signature := XXX },
  { name := "FFB", nbits := 16, opcode := 0xFFFB, signature := XXX },
  { name := "rtl", nbits := 16, opcode := 0xFFFC, signature := XXX },
  { name := "brk", nbits := 16, opcode := 0xFFFD, signature := XXX },
  { name := "hlt", nbits := 16, opcode := 0xFFFE, signature := XXX },
  { name := "die", nbits := 16, opcode := 0xFFFF, signature := XXX } ]

/-- Recognition mask computed in `decode` in src/dis/dis.go:
`mask := uint16(1 << nbits) - 1; mask <<= (16 - nbits)`, all in
wrapping uint16 arithmetic. -/
def keMask (nbits : Nat) : Nat :=
  ((((1 <<< nbits) % 65536 + 65535) % 65536) <<< (16 - nbits)) % 65536

/-- The match test of the scan loop in `decode` in src/dis/dis.go:
`op&mask == ke.opcode&mask`. -/
def keMatch (ke : KeyEntry) (op : Nat) : Bool :=
  (op &&& keMask ke.nbits) == (ke.opcode &&& keMask ke.nbits)

/-- The linear scan of `decode` in src/dis/dis.go: the first table
entry whose masked opcode matches, if any. -/
def decodeFound (op : Nat) : Option KeyEntry :=
  KeyTable.find? (fun ke => keMatch ke op)

end Dis

namespace Dis

def allPow (p : Nat → Bool) : Nat → Nat → Bool
  | 0, lo => p lo
  | d + 1, lo => allPow p d lo && allPow p d (lo + 2 ^ d)

lemma allPow_spec (p : Nat → Bool) :
    ∀ d lo, allPow p d lo = true → ∀ i, i < 2 ^ d → p (lo + i) = true := by
  intro d
  induction d with
  | zero =>
    intro lo h i hi
    have hi0 : i = 0 := by omega
    subst hi0
    simpa [allPow] using h
  | succ d ih =>
    intro lo h i hi
    rw [allPow, Bool.and_eq_true] at h
    by_cases hlt : i < 2 ^ d
    · exact ih lo h.1 i hlt
    · have hp : 2 ^ (d + 1) = 2 ^ d * 2 := pow_succ 2 d
      have h2 := ih (lo + 2 ^ d) h.2 (i - 2 ^ d) (by omega)
      have he : lo + 2 ^ d + (i - 2 ^ d) = lo + i := by omega
      rwa [he] at h2

lemma and_highMask (w k : Nat) (hw : w < 65536) (hk : k ≤ 16) :
    w &&& (65536 - 2 ^ k) = w / 2 ^ k * 2 ^ k := by
  have hmask : 65536 - 2 ^ k = 2 ^ k * (2 ^ (16 - k) - 1) := by
    have hke : k + (16 - k) = 16 := by omega
    have h2 : 2 ^ k * 2 ^ (16 - k) = 65536 := by
      rw [← pow_add, hke]
      norm_num
    calc 65536 - 2 ^ k = 2 ^ k * 2 ^ (16 - k) - 2 ^ k * 1 := by rw [h2, Nat.mul_one]
    _ = 2 ^ k * (2 ^ (16 - k) - 1) := by rw [← Nat.mul_sub]
  apply Nat.eq_of_testBit_eq
  intro i
  rw [Nat.testBit_and, hmask, Nat.testBit_mul_pow_two]
  rw [Nat.mul_comm (w / 2 ^ k) (2 ^ k), Nat.testBit_mul_pow_two]
  rcases Nat.lt_or_ge i k with hik | hik
  · simp [Nat.not_le_of_lt hik, hik]
  · have hsr : ∀ j, Nat.testBit (w / 2 ^ k) j = Nat.testBit w (k + j) := by
      intro j
      rw [← Nat.shiftRight_eq_div_pow, Nat.testBit_shiftRight]
    rw [Nat.testBit_two_pow_sub_one]
    rcases Nat.lt_or_ge i 16 with hi16 | hi16
    · have hki : k + (i - k) = i := by omega
      simp [hik, hsr, hki, show i - k < 16 - k by omega]
    · have hwbit : Nat.testBit w i = false := by
        apply Nat.testBit_lt_two_pow
        have h16 : (65536 : Nat) = 2 ^ 16 := by norm_num
        have hle : 2 ^ 16 ≤ 2 ^ i := Nat.pow_le_pow_right (by norm_num) hi16
        omega
      have hq : (w / 2 ^ k).testBit (i - k) = false := by
        rw [hsr, show k + (i - k) = i by omega]
        exact hwbit
      simp [hq, hwbit, show ¬(i - k < 16 - k) by omega]

lemma keMatch_iff_div (ke : KeyEntry) (w : Nat) (hw : w < 65536)
    (hop : ke.opcode < 65536) (hk : ke.nbits ≤ 16)
    (hmask : keMask ke.nbits = 65536 - 2 ^ (16 - ke.nbits)) :
    keMatch ke w =
      decide (w / 2 ^ (16 - ke.nbits) = ke.opcode / 2 ^ (16 - ke.nbits)) := by
  have hkk : 16 - ke.nbits ≤ 16 := by omega
  rw [keMatch, hmask, and_highMask w _ hw hkk, and_highMask ke.opcode _ hop hkk]
  by_cases h : w / 2 ^ (16 - ke.nbits) = ke.opcode / 2 ^ (16 - ke.nbits)
  · simp [h]
  · simp only [decide_eq_false h, beq_eq_false_iff_ne, ne_eq]
    intro hc
    exact h (Nat.eq_of_mul_eq_mul_right (Nat.two_pow_pos _) hc)

end Dis

namespace Dis

/-- The 22 KeyTable entries with recognition width at most 10 bits. -/
def KeyTabA : List KeyEntry := KeyTable.take 22

/-- The 7 ZOP KeyTable entries (width 13). -/
def KeyTabZ : List KeyEntry := [
  { name := "not", nbits := 13, opcode := 0xFFC0, signature := RXX },
  { name := "neg", nbits := 13, opcode := 0xFFC8, signature := RXX },
  { name := "sxt", nbits := 13, opcode := 0xFFD0, signature := RXX },
  { name := "swb", nbits := 13, opcode := 0xFFD8, signature := RXX },
  { name := "lsr", nbits := 13, opcode := 0xFFE0, signature := RXX },
  { name := "lsl", nbits := 13, opcode := 0xFFE8, signature := RXX },
  { name := "asr", nbits := 13, opcode := 0xFFF0, signature := RXX } ]

/-- The 8 VOP KeyTable entries (width 16). -/
def KeyTabV : List KeyEntry := [
  { name := "sys", nbits := 16, opcode := 0xFFF8, signature := XXX },
  { name := "srt", nbits := 16, opcode := 0xFFF9, signature := XXX },
  { name := "FFA", nbits := 16, opcode := 0xFFFA, signature := XXX },
  { name := "FFB", nbits := 16, opcode := 0xFFFB, signature := XXX },
  { name := "rtl", nbits := 16, opcode := 0xFFFC, signature := XXX },
  { name := "brk", nbits := 16, opcode := 0xFFFD, signature := XXX },
  { name := "hlt", nbits := 16, opcode := 0xFFFE, signature := XXX },
  { name := "die", nbits := 16, opcode := 0xFFFF, signature := XXX } ]

lemma keyTable_split : KeyTable = KeyTabA ++ (KeyTabZ ++ KeyTabV) := by rfl

lemma keyTable_facts : ∀ ke ∈ KeyTable,
    ke.opcode < 65536 ∧ ke.nbits ≤ 16 ∧
    keMask ke.nbits = 65536 - 2 ^ (16 - ke.nbits) := by decide

lemma keyTabA_nbits : ∀ ke ∈ KeyTabA, ke.nbits ≤ 10 := by decide

lemma keyTabZ_nbits : ∀ ke ∈ KeyTabZ, ke.nbits = 13 := by decide

lemma keyTabV_nbits : ∀ ke ∈ KeyTabV, ke.nbits = 16 := by decide

lemma divq (w k : Nat) (h6 : 6 ≤ k) : w / 64 * 64 / 2 ^ k = w / 2 ^ k := by
  have hs : (2 : Nat) ^ k = 64 * 2 ^ (k - 6) := by
    have h1 : (64 : Nat) = 2 ^ 6 := by norm_num
    rw [h1, ← pow_add]
    congr 1
    omega
  rw [hs, ← Nat.div_div_eq_div_mul, Nat.mul_div_cancel _ (by norm_num : (0:Nat) < 64),
      ← Nat.div_div_eq_div_mul]

def pA (u : Nat) : Bool :=
  (KeyTabA.filter (fun ke => keMatch ke (u * 64))).length == (if u == 1023 then 0 else 1)

set_option maxHeartbeats 4000000 in
lemma allPow_pA : allPow pA 10 0 = true := by decide

lemma filterA_mul (u : Nat) (hu : u < 1024) :
    (KeyTabA.filter (fun ke => keMatch ke (u * 64))).length =
      if u = 1023 then 0 else 1 := by
  have h := allPow_spec pA 10 0 allPow_pA u (by norm_num; omega)
  rw [Nat.zero_add] at h
  rw [pA] at h
  by_cases h23 : u = 1023
  · simpa [h23] using h
  · have hne : (u == 1023) = false := by simp [h23]
    rw [hne] at h
    simpa [h23] using h

lemma filterA_len (w : Nat) (hw : w < 65536) :
    (KeyTabA.filter (fun ke => keMatch ke w)).length =
      if w / 64 = 1023 then 0 else 1 := by
  have hcong : ∀ ke ∈ KeyTabA, keMatch ke w = keMatch ke (w / 64 * 64) := by
    intro ke hke
    have hmem : ke ∈ KeyTable := by
      rw [keyTable_split]
      exact List.mem_append_left _ hke
    obtain ⟨hop, hk16, hmask⟩ := keyTable_facts ke hmem
    have hn10 := keyTabA_nbits ke hke
    have hle : w / 64 * 64 ≤ w := Nat.div_mul_le_self w 64
    rw [keMatch_iff_div ke w hw hop hk16 hmask,
        keMatch_iff_div ke (w / 64 * 64) (by omega) hop hk16 hmask,
        divq w (16 - ke.nbits) (by omega)]
  rw [List.filter_congr hcong]
  have hq : w / 64 < 1024 := by omega
  rw [filterA_mul (w / 64) hq]

lemma filterZ_len (w : Nat) (hw : w < 65536) :
    (KeyTabZ.filter (fun ke => keMatch ke w)).length =
      if 8184 ≤ w / 8 ∧ w / 8 ≤ 8190 then 1 else 0 := by
  have hcong : ∀ ke ∈ KeyTabZ, keMatch ke w = decide (w / 8 = ke.opcode / 8) := by
    intro ke hke
    have hmem : ke ∈ KeyTable := by
      rw [keyTable_split]
      exact List.mem_append_right _ (List.mem_append_left _ hke)
    obtain ⟨hop, hk16, hmask⟩ := keyTable_facts ke hmem
    have hn13 := keyTabZ_nbits ke hke
    rw [keMatch_iff_div ke w hw hop hk16 hmask, hn13]
    norm_num
  rw [List.filter_congr hcong]
  generalize hq : w / 8 = q
  have hqb : q < 8192 := by omega
  have hcase : q < 8184 ∨ q = 8184 ∨ q = 8185 ∨ q = 8186 ∨ q = 8187 ∨ q = 8188 ∨
      q = 8189 ∨ q = 8190 ∨ q = 8191 := by omega
  rcases hcase with h | h | h | h | h | h | h | h | h
  · rw [if_neg (by omega)]
    rw [List.length_eq_zero]
    rw [List.filter_eq_nil_iff]
    intro ke hke
    fin_cases hke <;> simp only [decide_eq_true_eq] <;> omega
  all_goals subst h
  all_goals decide

set_option maxRecDepth 4096 in
lemma filterV_len (w : Nat) (hw : w < 65536) :
    (KeyTabV.filter (fun ke => keMatch ke w)).length =
      if 65528 ≤ w then 1 else 0 := by
  have hcong : ∀ ke ∈ KeyTabV, keMatch ke w = decide (w = ke.opcode) := by
    intro ke hke
    have hmem : ke ∈ KeyTable := by
      rw [keyTable_split]
      exact List.mem_append_right _ (List.mem_append_right _ hke)
    obtain ⟨hop, hk16, hmask⟩ := keyTable_facts ke hmem
    have hn16 := keyTabV_nbits ke hke
    rw [keMatch_iff_div ke w hw hop hk16 hmask, hn16]
    norm_num
  rw [List.filter_congr hcong]
  have hcase : w < 65528 ∨ w = 65528 ∨ w = 65529 ∨ w = 65530 ∨ w = 65531 ∨
      w = 65532 ∨ w = 65533 ∨ w = 65534 ∨ w = 65535 := by omega
  rcases hcase with h | h | h | h | h | h | h | h | h
  · rw [if_neg (by omega)]
    rw [List.length_eq_zero]
    rw [List.filter_eq_nil_iff]
    intro ke hke
    fin_cases hke <;> simp only [decide_eq_true_eq] <;> omega
  all_goals subst h
  all_goals decide

lemma find?_eq_head?_filter (l : List KeyEntry) (p : KeyEntry → Bool) :
    l.find? p = (l.filter p).head? := by
  induction l with
  | nil => rfl
  | cons a l ih =>
    rw [List.filter_cons]
    by_cases h : p a
    · rw [List.find?_cons_of_pos _ h, if_pos h, List.head?_cons]
    · rw [List.find?_cons_of_neg _ h, if_neg h]
      exact ih

/-- C9: for every 16-bit word (legal instructions included), the
disassembler key-table scan of `decode` in src/dis/dis.go has exactly one
matching entry, and the first matching entry found by the linear scan is
that unique entry; `decodeFound` is a deterministic function of the word
alone. -/
theorem decode_match_unique : ∀ w : Fin 65536,
    (KeyTable.filter (fun ke => keMatch ke w.val)).length = 1 ∧
    decodeFound w.val = (KeyTable.filter (fun ke => keMatch ke w.val)).head? := by
  intro w
  have hw : w.val < 65536 := w.isLt
  refine ⟨?_, find?_eq_head?_filter KeyTable (fun ke => keMatch ke w.val)⟩
  rw [keyTable_split, List.filter_append, List.filter_append,
      List.length_append, List.length_append,
      filterA_len w.val hw, filterZ_len w.val hw, filterV_len w.val hw]
  have h1 : w.val / 64 = 1023 ↔ 65472 ≤ w.val := by omega
  split_ifs <;> omega

end Dis

namespace Y4

/-- C1: at the start of a cycle with a pending exception and interrupts
enabled, `fetch` delivers the exception: kernel Irr receives the old pc,
kernel Icr the cause, kernel Imr the old mode; the machine enters kernel
mode at pc = ex with interrupts disabled and the latch cleared, and the
next code word is read from kernel code memory at address ex. -/
theorem fetch_delivers_exception (s : Y4Machine)
    (hex : s.ex ≠ 0) (hen : s.en = true) (hp : s.panicked = false)
    (hwrap : (s.ex + 1) % M16 ≠ 0) :
    (fetch s).regKern.spr Irr = s.pc ∧
    (fetch s).regKern.spr Icr = s.ex ∧
    (fetch s).regKern.spr Imr = s.mode ∧
    (fetch s).mode = Kern ∧
    (fetch s).en = false ∧
    (fetch s).ex = 0 ∧
    (fetch s).ir = s.memKern.imem s.ex ∧
    (fetch s).pc = (s.ex + 1) % M16 := by
  unfold fetch fetchDeliver
  simp [hex, hen, hp, hwrap, upd, memOf, Irr, Icr, Imr, Kern]

/-- Concrete machine state for the C1 witness: user mode at pc 0x1234
with pending exception 8 and interrupts enabled. -/
def c1state : Y4Machine :=
  { initMachine with
    ex := 8
    en := true
    mode := 0
    pc := 0x1234
    memKern := { zeroMem with imem := upd zeroMem.imem 8 0x4242 } }

theorem fetch_delivers_exception_witness :
    c1state.ex ≠ 0 ∧ c1state.en = true ∧ c1state.panicked = false ∧
    (c1state.ex + 1) % M16 ≠ 0 ∧
    ((fetch c1state).regKern.spr Irr = c1state.pc ∧
     (fetch c1state).regKern.spr Icr = c1state.ex ∧
     (fetch c1state).regKern.spr Imr = c1state.mode ∧
     (fetch c1state).mode = Kern ∧
     (fetch c1state).en = false ∧
     (fetch c1state).ex = 0 ∧
     (fetch c1state).ir = c1state.memKern.imem c1state.ex ∧
     (fetch c1state).pc = (c1state.ex + 1) % M16) :=
  ⟨by decide, rfl, rfl, by decide,
   fetch_delivers_exception c1state (by decide) rfl rfl (by decide)⟩

/-- C7: when the five stages of a cycle end with a nonzero exception
latch while interrupts are disabled, the main simulation loop stops at
that cycle (no further fetch happens for any remaining fuel), and the
halt report carries the double-fault diagnostic naming the pending
exception code. -/
theorem double_fault_halts (n : Nat) (s : Y4Machine) (hrun : s.run = true)
    (hex : (afterCycle { s with cyc := s.cyc + 1 }).ex ≠ 0)
    (hen : (afterCycle { s with cyc := s.cyc + 1 }).en = false) :
    simLoop (n + 1) s = afterCycle { s with cyc := s.cyc + 1 } ∧
    haltReport (simLoop (n + 1) s) =
      "halt" ++ ": double fault: exception " ++
        toString (afterCycle { s with cyc := s.cyc + 1 }).ex := by
  have h1 : simLoop (n + 1) s = afterCycle { s with cyc := s.cyc + 1 } := by
    simp only [simLoop]
    have hc1 : ¬(({ s with cyc := s.cyc + 1 } : Y4Machine).run = false) := by
      simp [hrun]
    rw [if_neg hc1, if_pos ⟨hex, hen⟩]
  refine ⟨h1, ?_⟩
  rw [h1, haltReport, if_pos ⟨hex, hen⟩]

/-- Concrete machine state for the C7 witness: user mode, interrupts
disabled, about to execute the privileged instruction di (0xFFFA),
which raises ExIllegal and therefore double-faults. -/
def c7state : Y4Machine :=
  { initMachine with
    run := true
    mode := 0
    memUser := { zeroMem with imem := upd zeroMem.imem 0 0xFFFA } }

theorem double_fault_halts_witness :
    c7state.run = true ∧
    (afterCycle { c7state with cyc := c7state.cyc + 1 }).ex ≠ 0 ∧
    (afterCycle { c7state with cyc := c7state.cyc + 1 }).en = false ∧
    simLoop 1 c7state = afterCycle { c7state with cyc := c7state.cyc + 1 } ∧
    haltReport (simLoop 1 c7state) =
      "halt" ++ ": double fault: exception " ++
        toString (afterCycle { c7state with cyc := c7state.cyc + 1 }).ex :=
  ⟨rfl, by decide, by decide,
   (double_fault_halts 0 c7state rfl (by decide) (by decide)).1,
   (double_fault_halts 0 c7state rfl (by decide) (by decide)).2⟩

end Y4

namespace Y4

/-- The r0 protection invariant: general register 0 of both register
files reads as zero, and the store-data latch holds zero (no code path
in src/func/exec.go ever assigns `y4.sd`). -/
def r0Inv (s : Y4Machine) : Prop :=
  s.regUser.gen 0 = 0 ∧ s.regKern.gen 0 = 0 ∧ s.sd = 0

lemma r0Inv_fetchDeliver (s : Y4Machine) (h : r0Inv s) : r0Inv (fetchDeliver s) := by
  simp only [fetchDeliver]
  split_ifs <;> exact h

lemma r0Inv_fetch (s : Y4Machine) (h : r0Inv s) : r0Inv (fetch s) := by
  have hd := r0Inv_fetchDeliver s h
  simp only [fetch]
  split_ifs <;> exact hd

lemma r0Inv_decode (s : Y4Machine) (h : r0Inv s) : r0Inv (decode s) := h

lemma r0Inv_sprSet (s : Y4Machine) (m i v : Nat) (h : r0Inv s) : r0Inv (sprSet s m i v) := by
  simp only [sprSet]
  split_ifs <;> exact h

lemma r0Inv_xLdw (s : Y4Machine) (h : r0Inv s) : r0Inv (xLdw s) := by
  simp only [xLdw]
  split_ifs <;> exact h

lemma r0Inv_xBeq (s : Y4Machine) (h : r0Inv s) : r0Inv (xBeq s) := by
  simp only [xBeq]
  split_ifs <;> exact h

lemma r0Inv_xJlr (s : Y4Machine) (h : r0Inv s) : r0Inv (xJlr s) := by
  simp only [xJlr]
  split_ifs <;> first
    | exact h
    | exact r0Inv_sprSet s s.mode Link s.pc h

lemma r0Inv_xAlu3 (s : Y4Machine) (h : r0Inv s) : r0Inv (xAlu3 s) := by
  simp only [xAlu3]
  split_ifs <;> exact h

lemma r0Inv_xAlu1 (s : Y4Machine) (h : r0Inv s) : r0Inv (xAlu1 s) := by
  simp only [xAlu1]
  split_ifs <;> exact h

lemma r0Inv_xYop (s : Y4Machine) (h : r0Inv s) : r0Inv (xYop s) := by
  simp only [xYop, xAddr]
  split_ifs <;> exact h

lemma r0Inv_xVop (s : Y4Machine) (h : r0Inv s) : r0Inv (xVop s) := by
  simp only [xVop, xRti, xRtl, xDi, xEi, xHlt, xBrk, xV06, xDie]
  split_ifs <;> exact h

lemma r0Inv_xBase (s : Y4Machine) (h : r0Inv s) : r0Inv (xBase s) := by
  simp only [xBase]
  split_ifs <;> first
    | exact r0Inv_xLdw s h
    | exact r0Inv_xBeq s h
    | exact r0Inv_xJlr s h
    | exact h

lemma r0Inv_execute (s : Y4Machine) (h : r0Inv s) : r0Inv (execute s) := by
  simp only [execute]
  split_ifs <;> first
    | exact h
    | exact r0Inv_xBase s h
    | exact r0Inv_xAlu3 s h
    | exact r0Inv_xYop s h
    | exact r0Inv_xAlu1 s h
    | exact r0Inv_xVop s h

lemma r0Inv_dmemSet (s : Y4Machine) (m i v : Nat) (h : r0Inv s) : r0Inv (dmemSet s m i v) := by
  simp only [dmemSet]
  split_ifs <;> exact h

lemma r0Inv_loadSpecial (s : Y4Machine) (h : r0Inv s) : r0Inv (loadSpecial s).2 := by
  delta loadSpecial
  dsimp only
  by_cases h1 : s.alu % SprSize = PC
  · rw [if_pos h1]
    exact h
  rw [if_neg h1]
  by_cases h2 : s.alu % SprSize = Link
  · rw [if_pos h2]
    exact h
  rw [if_neg h2]
  by_cases h3 : s.alu % SprSize = Irr ∨ s.alu % SprSize = Icr ∨
      s.alu % SprSize = Imr ∨ s.alu % SprSize = 5
  · rw [if_pos h3]
    by_cases h3k : s.mode = Kern
    · rw [if_pos h3k]
      exact h
    · rw [if_neg h3k]
      exact h
  rw [if_neg h3]
  by_cases h4 : s.alu % SprSize = CCLS
  · rw [if_pos h4]
    exact h
  rw [if_neg h4]
  by_cases h5 : s.alu % SprSize = CCMS
  · rw [if_pos h5]
    exact h
  rw [if_neg h5]
  by_cases h6 : s.mode = User
  · rw [if_pos h6]
    exact h
  rw [if_neg h6]
  by_cases h7 : 8 ≤ s.alu % SprSize ∧ s.alu % SprSize < 16
  · rw [if_pos h7]
    exact h
  rw [if_neg h7]
  by_cases h8 : 16 ≤ s.alu % SprSize ∧ s.alu % SprSize < 24
  · rw [if_pos h8]
    exact h
  rw [if_neg h8]
  by_cases h9 : 24 ≤ s.alu % SprSize ∧ s.alu % SprSize < 31
  · rw [if_pos h9]
    by_cases h9a : s.alu % SprSize = 25
    · rw [if_pos h9a]
      exact h
    · rw [if_neg h9a]
      exact h
  rw [if_neg h9]
  by_cases h10 : 32 ≤ s.alu % SprSize
  · rw [if_pos h10]
    exact h
  · rw [if_neg h10]
    exact h

lemma r0Inv_storeSpecial (s : Y4Machine) (v : Nat) (hv : v = 0) (h : r0Inv s) :
    r0Inv (storeSpecial s v) := by
  obtain ⟨h1, h2, h3⟩ := h
  simp only [storeSpecial]
  split_ifs <;> refine ⟨?_, h2, h3⟩ <;> try exact h1
  all_goals
    simp only [upd]
    split_ifs <;> simp [hv, h1]

lemma r0Inv_memory (s : Y4Machine) (h : r0Inv s) : r0Inv (memoryStage s) := by
  simp only [memoryStage]
  split_ifs <;> first
    | exact h
    | exact r0Inv_dmemSet _ _ _ _ h
    | exact r0Inv_dmemSet _ _ _ _ (r0Inv_dmemSet _ _ _ _ h)
    | exact r0Inv_loadSpecial _ h
    | exact r0Inv_storeSpecial _ _ h.2.2 h

lemma r0Inv_genSet (s : Y4Machine) (m i v : Nat) (hi : i ≠ 0) (h : r0Inv s) :
    r0Inv (genSet s m i v) := by
  obtain ⟨h1, h2, h3⟩ := h
  simp only [genSet]
  split_ifs <;> refine ⟨?_, ?_, h3⟩ <;> try assumption
  all_goals
    simp only [upd]
    rw [if_neg (by omega)]
    assumption

lemma r0Inv_writeback (s : Y4Machine) (h : r0Inv s) : r0Inv (writebackStage s) := by
  simp only [writebackStage]
  split_ifs with hex hcond hra
  · exact h
  · exact r0Inv_genSet _ _ _ _ hra h
  · exact h
  · exact h

lemma r0Inv_afterCycle (s : Y4Machine) (h : r0Inv s) : r0Inv (afterCycle s) :=
  r0Inv_writeback _ (r0Inv_memory _ (r0Inv_execute _ (r0Inv_decode _ (r0Inv_fetch _ h))))

lemma r0Inv_simLoop (n : Nat) (s : Y4Machine) (h : r0Inv s) : r0Inv (simLoop n s) := by
  induction n generalizing s with
  | zero => exact h
  | succ n ih =>
    simp only [simLoop]
    have hb : r0Inv ({ s with cyc := s.cyc + 1 } : Y4Machine) := h
    split_ifs
    · exact hb
    · exact r0Inv_afterCycle _ hb
    · exact ih _ (r0Inv_afterCycle _ hb)

/-- C5: in every machine state reachable by running the simulator from
reset, general register r0 of both the user and the kernel register file
reads as zero: every write aimed at r0 (the guarded writeback path and
the kernel-only SPR 16 alias, which always stores the never-assigned sd
latch, i.e. zero) leaves r0 reading zero. -/
theorem r0_reads_zero (n : Nat) :
    (simLoop n (reset initMachine)).regUser.gen 0 = 0 ∧
    (simLoop n (reset initMachine)).regKern.gen 0 = 0 := by
  have h0 : r0Inv (reset initMachine) := ⟨rfl, rfl, rfl⟩
  have h := r0Inv_simLoop n (reset initMachine) h0
  exact ⟨h.1, h.2.1⟩

end Y4

namespace Y4

/-- Counterexample state for C3: an SPR file whose MMU entries all hold
0x030, so translating code address 0 yields physical 0x30000, exactly
the physical-memory size. -/
def c3spr : Nat → Nat := fun _ => 0x030

/-- C3 counterexample: at physical address exactly PhysMemSize the
source comparison `result > PhysMemSize` does not fire, so translate
returns ExNone even though the address is greater than or equal to the
physical-memory size, contradicting the claim's "≥" bound. -/
theorem translate_boundary_counterexample :
    (translate c3spr false 0).1 = ExNone ∧
    (translate c3spr false 0).1 ≠ ExMemory ∧
    (translate c3spr false 0).2 = PhysMemSize ∧
    (translate c3spr false 0).2 ≥ PhysMemSize := by
  refine ⟨rfl, by decide, rfl, by decide⟩

/-- C3 (amended): translate computes the physical address as
((SPR[base + vaddr over 4096] mod 4096) shifted left 12 bits) or-ed with
(vaddr mod 4096), with base 32 for code and 48 for data, shifts the
result right one bit for data addresses, and returns ExMemory exactly
when the resulting physical address is strictly greater than the
physical-memory size (not greater-or-equal as the claim stated);
otherwise it returns ExNone. -/
theorem translate_formula (spr : Nat → Nat) (isData : Bool) (virtAddr : Nat) :
    (translate spr isData virtAddr).2 =
      (let upper := spr ((if isData then 48 else 32) + virtAddr / 4096) &&& 0xFFF
       let paddr := (upper <<< 12) ||| (virtAddr &&& 0xFFF)
       if isData then paddr / 2 else paddr) ∧
    ((translate spr isData virtAddr).1 = ExMemory ↔
      (translate spr isData virtAddr).2 > PhysMemSize) ∧
    ((translate spr isData virtAddr).1 = ExNone ↔
      ¬ (translate spr isData virtAddr).2 > PhysMemSize) := by
  unfold translate
  cases isData <;>
    (dsimp only
     split_ifs <;> simp_all [ExMemory, ExNone])

end Y4

namespace Asm

/-- C8: the generator of src/asm/generator.go is an unimplemented stub:
for every instruction list it reports success while emitting no code
words at all, so assembling any program (for example the spec's
`sys 8`, which should emit the single word 0xE200) produces no binary,
and the assemble-disassemble-assemble round trip of the integration
driver cannot be satisfied by this code. -/
theorem generate_emits_nothing (instructions : List MachineInstruction) :
    generate instructions = Except.ok [] ∧
    (match generate instructions with
     | Except.ok words => words.length
     | Except.error _ => 0) = 0 := by
  exact ⟨rfl, rfl⟩

/-- The empty symbol table (before any reserved entries are added). -/
def emptyTable : SymbolTable := { indexes := [], entries := [] }

/-- Symbol table with the two forward references used by the C10
counterexample: UseSymbol "A" then UseSymbol "L" on an empty table. -/
def c10table : SymbolTable :=
  (UseSymbol (UseSymbol emptyTable "A" 0).2.2 "L" 0).2.2

/-- C10 counterexample: after the name "L" is entered as a forward
reference with index 1, DefineSymbol returns index 1 — the symbol's own
index from the successful map lookup — not the zero value of a failed
lookup as the claim describes.  (The rest of the claimed behavior does
hold: the table is returned unchanged and Get still fails.) -/
theorem defineSymbol_returns_real_index :
    (DefineSymbol c10table "L" 42).1 = 1 ∧
    mapFind c10table.indexes "L" = some 1 ∧
    (DefineSymbol c10table "L" 42).1 ≠ 0 := by
  refine ⟨rfl, rfl, ?_⟩
  decide

/-- C10 (amended): for every symbol that exists in the table in the
undefined state (as created by UseSymbol for a forward reference), a
call to DefineSymbol returns success (no error) carrying the symbol's
real index, but leaves the table completely unchanged — the defined
flag is set only on a local copy of the entry and the value argument is
discarded — so a subsequent Get of that name still returns NoSymbol
with an "undefined" error. -/
theorem defineSymbol_leaves_undefined (st : SymbolTable) (name : String)
    (value index : Nat)
    (hidx : mapFind st.indexes name = some index)
    (hundef : (st.entries.getD index { flags := 0, value := 0 }).flags &&& symDefined = 0) :
    DefineSymbol st name value = (index, none, st) ∧
    Get st name = (NoSymbol, some ("undefined: " ++ name)) ∧
    Get (DefineSymbol st name value).2.2 name =
      (NoSymbol, some ("undefined: " ++ name)) := by
  have hdef : DefineSymbol st name value = (index, none, st) := by
    unfold DefineSymbol
    rw [hidx]
    dsimp only
    rw [if_neg (by omega)]
  have hget : Get st name = (NoSymbol, some ("undefined: " ++ name)) := by
    unfold Get
    rw [hidx]
    dsimp only
    rw [if_pos hundef]
  refine ⟨hdef, hget, ?_⟩
  rw [hdef]
  exact hget

theorem defineSymbol_leaves_undefined_witness :
    mapFind c10table.indexes "L" = some 1 ∧
    (c10table.entries.getD 1 { flags := 0, value := 0 }).flags &&& symDefined = 0 ∧
    (DefineSymbol c10table "L" 42 = (1, none, c10table) ∧
     Get c10table "L" = (NoSymbol, some ("undefined: " ++ "L")) ∧
     Get (DefineSymbol c10table "L" 42).2.2 "L" =
       (NoSymbol, some ("undefined: " ++ "L"))) :=
  ⟨rfl, rfl, defineSymbol_leaves_undefined c10table "L" 42 1 rfl rfl⟩

end Asm

namespace Y4

lemma fetch_eq (s : Y4Machine) (hex : s.ex = 0) (hp : s.panicked = false)
    (hw : (s.pc + 1) % M16 ≠ 0) :
    fetch s = { s with ir := (memOf s s.mode).imem s.pc, pc := (s.pc + 1) % M16 } := by
  unfold fetch fetchDeliver
  dsimp only
  rw [if_neg (show ¬(s.ex ≠ 0) by simp [hex])]
  rw [if_neg (show ¬(s.panicked = true) by simp [hp])]
  rw [if_neg hw]

lemma jlr_shape (i b a : Nat) (hi : i < 64) (hb : b < 8) (ha : a < 8) :
    bits (0xE000 + 64 * i + 8 * b + a) 15 13 = 7 ∧
    bits (0xE000 + 64 * i + 8 * b + a) 15 3 ≠ 0x1FFF ∧
    bits (0xE000 + 64 * i + 8 * b + a) 15 6 ≠ 0x3FF ∧
    bits (0xE000 + 64 * i + 8 * b + a) 15 9 ≠ 0x7F ∧
    bits (0xE000 + 64 * i + 8 * b + a) 15 12 = 0xE ∧
    bits (0xE000 + 64 * i + 8 * b + a) 2 0 = a ∧
    bits (0xE000 + 64 * i + 8 * b + a) 5 3 = b ∧
    bits (0xE000 + 64 * i + 8 * b + a) 12 12 = 0 ∧
    bits (0xE000 + 64 * i + 8 * b + a) 12 6 = i ∧
    (0xE000 + 64 * i + 8 * b + a) ≠ 0 := by
  unfold bits
  norm_num
  omega

lemma sxtImm_jlr (i b a : Nat) (hi : i < 64) (hb : b < 8) (ha : a < 8) :
    sxtImm (0xE000 + 64 * i + 8 * b + a) = i := by
  obtain ⟨h1, _, _, _, _, _, _, h8, h9, _⟩ := jlr_shape i b a hi hb ha
  unfold sxtImm
  dsimp only
  rw [h1, h8]
  norm_num
  exact h9

end Y4

namespace Y4

lemma memoryStage_ex (s : Y4Machine) (h : s.ex ≠ 0) : memoryStage s = s := by
  unfold memoryStage
  rw [if_pos h]

lemma writebackStage_ex (s : Y4Machine) (h : s.ex ≠ 0) : writebackStage s = s := by
  unfold writebackStage
  rw [if_pos h]

lemma memoryStage_eq_wb (s : Y4Machine) (hex : s.ex = 0) (hop : ¬ s.op < 4)
    (hy : s.isYop = false) : memoryStage s = { s with wb := s.alu } := by
  unfold memoryStage
  rw [if_neg (by omega)]
  dsimp only
  rw [if_neg hop, if_neg (by rw [hy]; simp)]

lemma writebackStage_skip (s : Y4Machine) (hex : s.ex = 0)
    (h : ¬(s.op = 0 ∨ s.op = 1 ∨ s.op = 5 ∨ s.op = 6 ∨ s.isXop = true ∨
           (s.isYop = true ∧ s.yop < 2) ∨ s.isZop = true)) :
    writebackStage s = s := by
  unfold writebackStage
  rw [if_neg (by omega), if_neg h]

/-- C6 (amended): the rA field of an executed jlr instruction selects
the behavior, with the sys-trap case additionally requiring rB = 0:
with rA = 0 the exception latch receives the immediate when rB = 0 and
the immediate is even, nonzero, and at most 30, and ExIllegal
otherwise; with rA = 1 Link receives the incremented pc and pc becomes
rB + imm; with rA = 2 pc becomes rB + imm; any rA of 3..7 raises
ExIllegal. -/
theorem jlr_rA_selects (s : Y4Machine) (i b a : Nat)
    (hi : i < 64) (hb : b < 8) (ha : a < 8)
    (hex : s.ex = 0) (hp : s.panicked = false)
    (hwrap : (s.pc + 1) % M16 ≠ 0)
    (hw : (memOf s s.mode).imem s.pc = 0xE000 + 64 * i + 8 * b + a) :
    (a = 0 →
      if b = 0 ∧ i % 2 = 0 ∧ i ≠ 0 ∧ i ≤ 30
      then (afterCycle s).ex = i
      else (afterCycle s).ex = ExIllegal) ∧
    (a = 1 →
      (afterCycle s).mode = s.mode ∧
      (regOf (afterCycle s) s.mode).spr Link = (s.pc + 1) % M16 ∧
      (afterCycle s).pc = ((regOf s s.mode).gen b + i) % M16) ∧
    (a = 2 →
      (afterCycle s).pc = ((regOf s s.mode).gen b + i) % M16 ∧
      (regOf (afterCycle s) s.mode).spr Link = (regOf s s.mode).spr Link) ∧
    (3 ≤ a → (afterCycle s).ex = ExIllegal) := by
  obtain ⟨h1, h2, h3, h4, h5, h6, h7, h8, h9, h10⟩ := jlr_shape i b a hi hb ha
  have hsx := sxtImm_jlr i b a hi hb ha
  have hv2 : decide (bits (0xE000 + 64 * i + 8 * b + a) 15 3 = 0x1FFF) = false :=
    decide_eq_false h2
  have hv3 : decide (bits (0xE000 + 64 * i + 8 * b + a) 15 6 = 0x03FF) = false :=
    decide_eq_false h3
  have hv4 : decide (bits (0xE000 + 64 * i + 8 * b + a) 15 9 = 0x007F) = false :=
    decide_eq_false h4
  have hv5 : decide (bits (0xE000 + 64 * i + 8 * b + a) 15 12 = 0x000F) = false := by
    rw [h5]
    decide
  simp only [afterCycle, fetch_eq s hex hp hwrap, hw, decode]
  simp only [h1, h5, h6, h7, h8, h9, hsx, hv2, hv3, hv4, hv5,
    Bool.not_false, Bool.and_self, Bool.true_and, Bool.and_true, Bool.false_and,
    Bool.and_false, Bool.not_true]
  simp only [execute, hex]
  try dsimp only
  simp only [xBase]
  norm_num
  simp only [xJlr]
  try dsimp only
  rw [h5]
  norm_num
  refine ⟨?_, ?_, ?_, ?_⟩
  · intro ha0
    subst ha0
    norm_num
    split_ifs with hclaim hcode hcode
    · omega
    · rw [memoryStage_ex _ (by dsimp only; omega),
          writebackStage_ex _ (by dsimp only; omega)]
    · rw [memoryStage_ex _ (by dsimp only; decide),
          writebackStage_ex _ (by dsimp only; decide)]
    · omega
  · intro ha1
    subst ha1
    norm_num
    unfold sprSet
    by_cases hm : s.mode = 0
    · rw [if_pos hm]
      dsimp only
      rw [memoryStage_eq_wb _ rfl (by dsimp only; decide) rfl,
          writebackStage_skip _ rfl (by dsimp only; simp)]
      unfold regOf
      rw [if_pos hm, if_pos hm]
      dsimp only
      simp [upd, Link]
    · rw [if_neg hm]
      dsimp only
      rw [memoryStage_eq_wb _ rfl (by dsimp only; decide) rfl,
          writebackStage_skip _ rfl (by dsimp only; simp)]
      unfold regOf
      rw [if_neg hm, if_neg hm]
      dsimp only
      simp [upd, Link]
  · intro ha2
    subst ha2
    norm_num
    rw [memoryStage_eq_wb _ rfl (by dsimp only; decide) rfl,
        writebackStage_skip _ rfl (by dsimp only; simp)]
    exact ⟨rfl, rfl⟩
  · intro ha3
    rw [if_neg (by omega), if_neg (by omega), if_neg (by omega)]
    rw [memoryStage_ex _ (by dsimp only; decide),
        writebackStage_ex _ (by dsimp only; decide)]

/-- Concrete state for the C6 counterexample: user mode about to
execute 0xE208, i.e. jlr with rA = 0, rB = 1, immediate 8. -/
def c6state : Y4Machine :=
  { initMachine with
    mode := 0
    memUser := { zeroMem with imem := upd zeroMem.imem 0 0xE208 } }

/-- C6 counterexample: for the jlr word 0xE208 the rA field is 0 and
the immediate 8 is even and within 2..30, so the claim as stated
requires the exception latch to receive 8; the code instead raises
ExIllegal (32) because the rB field is 1, a condition the claim
omits. -/
theorem jlr_sys_rb_counterexample :
    bits 0xE208 2 0 = 0 ∧ sxtImm 0xE208 = 8 ∧ bits 0xE208 5 3 = 1 ∧
    (afterCycle c6state).ex = ExIllegal ∧ (afterCycle c6state).ex ≠ 8 := by
  refine ⟨by decide, by decide, by decide, by decide, by decide⟩

/-- Concrete state for the C6 witness: user mode about to execute
0xE200, i.e. jlr with rA = 0, rB = 0, immediate 8 (sys 8). -/
def c6wstate : Y4Machine :=
  { initMachine with
    mode := 0
    memUser := { zeroMem with imem := upd zeroMem.imem 0 0xE200 } }

theorem jlr_rA_selects_witness :
    (8 : Nat) < 64 ∧ (0 : Nat) < 8 ∧
    c6wstate.ex = 0 ∧ c6wstate.panicked = false ∧
    (c6wstate.pc + 1) % M16 ≠ 0 ∧
    (memOf c6wstate c6wstate.mode).imem c6wstate.pc = 0xE000 + 64 * 8 + 8 * 0 + 0 ∧
    ((0 = 0 →
      if (0 : Nat) = 0 ∧ 8 % 2 = 0 ∧ (8 : Nat) ≠ 0 ∧ (8 : Nat) ≤ 30
      then (afterCycle c6wstate).ex = 8
      else (afterCycle c6wstate).ex = ExIllegal) ∧
     (0 = 1 →
      (afterCycle c6wstate).mode = c6wstate.mode ∧
      (regOf (afterCycle c6wstate) c6wstate.mode).spr Link = (c6wstate.pc + 1) % M16 ∧
      (afterCycle c6wstate).pc = ((regOf c6wstate c6wstate.mode).gen 0 + 8) % M16) ∧
     (0 = 2 →
      (afterCycle c6wstate).pc = ((regOf c6wstate c6wstate.mode).gen 0 + 8) % M16 ∧
      (regOf (afterCycle c6wstate) c6wstate.mode).spr Link =
        (regOf c6wstate c6wstate.mode).spr Link) ∧
     (3 ≤ 0 → (afterCycle c6wstate).ex = ExIllegal)) :=
  ⟨by decide, by decide, rfl, rfl, by decide, by decide,
   jlr_rA_selects c6wstate 8 0 0 (by decide) (by decide) (by decide) rfl rfl
     (by decide) (by decide)⟩

end Y4

namespace Y4

/-- Kernel-only SPR indices named by C2: Irr, Icr, Imr, and the MMU
range 32..63. -/
def privSprIndex (r : Nat) : Prop :=
  r = Irr ∨ r = Icr ∨ r = Imr ∨ (32 ≤ r ∧ r < 64)

lemma loadSpecial_user_illegal (s : Y4Machine) (hm : s.mode = 0)
    (hr : privSprIndex (s.alu % 64)) :
    loadSpecial s = (0, { s with ex := ExIllegal }) := by
  have hSpr : SprSize = 64 := rfl
  delta loadSpecial
  dsimp only
  rw [hSpr]
  rcases hr with h | h | h | h
  · rw [if_neg (by rw [h]; decide), if_neg (by rw [h]; decide),
        if_pos (Or.inl h), if_neg (by rw [hm]; decide)]
  · rw [if_neg (by rw [h]; decide), if_neg (by rw [h]; decide),
        if_pos (Or.inr (Or.inl h)), if_neg (by rw [hm]; decide)]
  · rw [if_neg (by rw [h]; decide), if_neg (by rw [h]; decide),
        if_pos (Or.inr (Or.inr (Or.inl h))), if_neg (by rw [hm]; decide)]
  · rw [if_neg (show ¬ s.alu % 64 = PC by unfold PC; omega),
        if_neg (show ¬ s.alu % 64 = Link by unfold Link; omega),
        if_neg (show ¬(s.alu % 64 = Irr ∨ s.alu % 64 = Icr ∨ s.alu % 64 = Imr ∨
          s.alu % 64 = 5) by unfold Irr Icr Imr; omega),
        if_neg (show ¬ s.alu % 64 = CCLS by unfold CCLS; omega),
        if_neg (show ¬ s.alu % 64 = CCMS by unfold CCMS; omega),
        if_pos (show s.mode = User from hm)]

lemma storeSpecial_user_illegal (s : Y4Machine) (v : Nat) (hm : s.mode = 0)
    (hr : privSprIndex (s.alu % 64)) :
    storeSpecial s v = { s with ex := ExIllegal } := by
  have hSpr : SprSize = 64 := rfl
  delta storeSpecial
  dsimp only
  rw [hSpr]
  rw [if_pos (show s.mode = User from hm)]
  rw [if_neg (show ¬ s.alu % 64 = Link by unfold Link; unfold privSprIndex Irr Icr Imr at hr; omega)]

lemma yop_shape (y b a : Nat) (hy : y < 7) (hb : b < 8) (ha : a < 8) :
    bits (0xFE00 + 64 * y + 8 * b + a) 15 13 = 7 ∧
    bits (0xFE00 + 64 * y + 8 * b + a) 15 3 ≠ 0x1FFF ∧
    bits (0xFE00 + 64 * y + 8 * b + a) 15 6 ≠ 0x3FF ∧
    bits (0xFE00 + 64 * y + 8 * b + a) 15 9 = 0x7F ∧
    bits (0xFE00 + 64 * y + 8 * b + a) 8 6 = y ∧
    bits (0xFE00 + 64 * y + 8 * b + a) 5 3 = b ∧
    bits (0xFE00 + 64 * y + 8 * b + a) 2 0 = a ∧
    bits (0xFE00 + 64 * y + 8 * b + a) 12 12 = 1 := by
  unfold bits
  norm_num
  omega

lemma sxtImm_yop (y b a : Nat) (hy : y < 7) (hb : b < 8) (ha : a < 8) :
    sxtImm (0xFE00 + 64 * y + 8 * b + a) = 0 := by
  obtain ⟨h1, _, _, _, _, _, _, h8⟩ := yop_shape y b a hy hb ha
  unfold sxtImm
  dsimp only
  rw [h1, h8]
  norm_num

end Y4

namespace Y4

lemma memoryStage_lsp (t : Y4Machine) (hex : t.ex = 0) (hop : ¬ t.op < 4)
    (hy : t.isYop = true) (hy0 : t.yop = 0) :
    memoryStage t =
      { (loadSpecial { t with wb := t.alu }).2 with
        wb := (loadSpecial { t with wb := t.alu }).1 } := by
  unfold memoryStage
  rw [if_neg (by omega)]
  dsimp only
  rw [if_neg hop, if_pos hy, if_pos hy0]

lemma memoryStage_ssp (t : Y4Machine) (hex : t.ex = 0) (hop : ¬ t.op < 4)
    (hy : t.isYop = true) (hy2 : t.yop = 2) :
    memoryStage t = storeSpecial { t with wb := t.alu } t.sd := by
  unfold memoryStage
  rw [if_neg (by omega)]
  dsimp only
  rw [if_neg hop, if_pos hy, if_neg (by omega), if_neg (by omega), if_pos hy2]

/-- The seven-field frame property C2 asserts of a cycle: only the
exception latch changes, to ExIllegal. -/
def illegalFrame (s : Y4Machine) : Prop :=
  (afterCycle s).ex = ExIllegal ∧
  (afterCycle s).regUser = s.regUser ∧
  (afterCycle s).regKern = s.regKern ∧
  (afterCycle s).memUser = s.memUser ∧
  (afterCycle s).memKern = s.memKern ∧
  (afterCycle s).mode = s.mode ∧
  (afterCycle s).en = s.en

lemma execute_vop (t : Y4Machine) (h0 : t.ex = 0) (h1 : t.isBase = false)
    (h2 : t.isXop = false) (h3 : t.isYop = false) (h4 : t.isZop = false)
    (h5 : t.isVop = true) : execute t = xVop t := by
  unfold execute
  rw [if_neg (show ¬ t.ex ≠ 0 by omega),
      if_neg (show ¬ t.isBase = true by rw [h1]; decide),
      if_neg (show ¬ t.isXop = true by rw [h2]; decide),
      if_neg (show ¬ t.isYop = true by rw [h3]; decide),
      if_neg (show ¬ t.isZop = true by rw [h4]; decide),
      if_pos h5]

lemma xVop_eq_rti (t : Y4Machine) (h : t.vop = 0) : xVop t = xRti t := by
  unfold xVop
  rw [if_pos h]

lemma xRti_user (t : Y4Machine) (h : t.mode = User) :
    xRti t = { t with ex := ExIllegal } := by
  unfold xRti
  rw [if_pos h]

lemma upi_rti (s : Y4Machine)

    (hm : s.mode = 0) (hex : s.ex = 0) (hp : s.panicked = false)
    (hwrap : (s.pc + 1) % M16 ≠ 0)
    (hww : (memOf s s.mode).imem s.pc = 0xFFF8) :
    illegalFrame s := by
  unfold illegalFrame
  simp only [afterCycle, fetch_eq s hex hp hwrap, hww, decode]
  simp only [show decide (bits 0xFFF8 15 3 = 0x1FFF) = true from by decide,
    show sxtImm 0xFFF8 = 0 from by decide,
    show bits 0xFFF8 2 0 = 0 from by decide,
    Bool.not_true, Bool.not_false, Bool.false_and, Bool.and_false,
    Bool.true_and, Bool.and_true]
  rw [execute_vop]
  rw [xVop_eq_rti]
  rw [xRti_user]
  rw [memoryStage_ex _ (by decide : (ExIllegal : Nat) ≠ 0),
      writebackStage_ex _ (by decide : (ExIllegal : Nat) ≠ 0)]
  refine ⟨rfl, rfl, rfl, rfl, rfl, rfl, rfl⟩
  all_goals first
    | rfl
    | (dsimp only; rfl)
    | exact hm
    | (dsimp only; exact hm)
    | omega
    | (dsimp only; omega)

lemma xVop_eq_di (t : Y4Machine) (h2 : t.vop = 2) : xVop t = xDi t := by
  unfold xVop
  rw [if_neg (by omega), if_neg (by omega), if_pos h2]

lemma xVop_eq_ei (t : Y4Machine) (h3 : t.vop = 3) : xVop t = xEi t := by
  unfold xVop
  rw [if_neg (by omega), if_neg (by omega), if_neg (by omega), if_pos h3]

lemma xVop_eq_hlt (t : Y4Machine) (h4 : t.vop = 4) : xVop t = xHlt t := by
  unfold xVop
  rw [if_neg (by omega), if_neg (by omega), if_neg (by omega),
      if_neg (by omega), if_pos h4]

lemma xVop_eq_brk (t : Y4Machine) (h5 : t.vop = 5) : xVop t = xBrk t := by
  unfold xVop
  rw [if_neg (by omega), if_neg (by omega), if_neg (by omega),
      if_neg (by omega), if_neg (by omega), if_pos h5]

lemma xDi_user (t : Y4Machine) (h : t.mode = User) :
    xDi t = { t with ex := ExIllegal } := by
  unfold xDi
  rw [if_pos h]

lemma xEi_user (t : Y4Machine) (h : t.mode = User) :
    xEi t = { t with ex := ExIllegal } := by
  unfold xEi
  rw [if_pos h]

lemma xHlt_user (t : Y4Machine) (h : t.mode = User) :
    xHlt t = { t with ex := ExIllegal } := by
  unfold xHlt
  rw [if_pos h]

lemma xBrk_user (t : Y4Machine) (h : t.mode = User) :
    xBrk t = { t with ex := ExIllegal } := by
  unfold xBrk
  rw [if_pos h]

lemma upi_di (s : Y4Machine)

    (hm : s.mode = 0) (hex : s.ex = 0) (hp : s.panicked = false)
    (hwrap : (s.pc + 1) % M16 ≠ 0)
    (hww : (memOf s s.mode).imem s.pc = 0xFFFA) :
    illegalFrame s := by
  unfold illegalFrame
  simp only [afterCycle, fetch_eq s hex hp hwrap, hww, decode]
  simp only [show decide (bits 0xFFFA 15 3 = 0x1FFF) = true from by decide,
    show sxtImm 0xFFFA = 0 from by decide,
    show bits 0xFFFA 2 0 = 2 from by decide,
    Bool.not_true, Bool.not_false, Bool.false_and, Bool.and_false,
    Bool.true_and, Bool.and_true]
  rw [execute_vop]
  rw [xVop_eq_di]
  rw [xDi_user]
  rw [memoryStage_ex _ (by decide : (ExIllegal : Nat) ≠ 0),
      writebackStage_ex _ (by decide : (ExIllegal : Nat) ≠ 0)]
  refine ⟨rfl, rfl, rfl, rfl, rfl, rfl, rfl⟩
  all_goals first
    | rfl
    | (dsimp only; rfl)
    | exact hm
    | (dsimp only; exact hm)
    | omega
    | (dsimp only; omega)

lemma upi_ei (s : Y4Machine)
    (hm : s.mode = 0) (hex : s.ex = 0) (hp : s.panicked = false)
    (hwrap : (s.pc + 1) % M16 ≠ 0)
    (hww : (memOf s s.mode).imem s.pc = 0xFFFB) :
    illegalFrame s := by
  unfold illegalFrame
  simp only [afterCycle, fetch_eq s hex hp hwrap, hww, decode]
  simp only [show decide (bits 0xFFFB 15 3 = 0x1FFF) = true from by decide,
    show sxtImm 0xFFFB = 0 from by decide,
    show bits 0xFFFB 2 0 = 3 from by decide,
    Bool.not_true, Bool.not_false, Bool.false_and, Bool.and_false,
    Bool.true_and, Bool.and_true]
  rw [execute_vop]
  rw [xVop_eq_ei]
  rw [xEi_user]
  rw [memoryStage_ex _ (by decide : (ExIllegal : Nat) ≠ 0),
      writebackStage_ex _ (by decide : (ExIllegal : Nat) ≠ 0)]
  refine ⟨rfl, rfl, rfl, rfl, rfl, rfl, rfl⟩
  all_goals first
    | rfl
    | (dsimp only; rfl)
    | exact hm
    | (dsimp only; exact hm)
    | omega
    | (dsimp only; omega)

lemma upi_hlt (s : Y4Machine)
    (hm : s.mode = 0) (hex : s.ex = 0) (hp : s.panicked = false)
    (hwrap : (s.pc + 1) % M16 ≠ 0)
    (hww : (memOf s s.mode).imem s.pc = 0xFFFC) :
    illegalFrame s := by
  unfold illegalFrame
  simp only [afterCycle, fetch_eq s hex hp hwrap, hww, decode]
  simp only [show decide (bits 0xFFFC 15 3 = 0x1FFF) = true from by decide,
    show sxtImm 0xFFFC = 0 from by decide,
    show bits 0xFFFC 2 0 = 4 from by decide,
    Bool.not_true, Bool.not_false, Bool.false_and, Bool.and_false,
    Bool.true_and, Bool.and_true]
  rw [execute_vop]
  rw [xVop_eq_hlt]
  rw [xHlt_user]
  rw [memoryStage_ex _ (by decide : (ExIllegal : Nat) ≠ 0),
      writebackStage_ex _ (by decide : (ExIllegal : Nat) ≠ 0)]
  refine ⟨rfl, rfl, rfl, rfl, rfl, rfl, rfl⟩
  all_goals first
    | rfl
    | (dsimp only; rfl)
    | exact hm
    | (dsimp only; exact hm)
    | omega
    | (dsimp only; omega)

lemma upi_brk (s : Y4Machine)
    (hm : s.mode = 0) (hex : s.ex = 0) (hp : s.panicked = false)
    (hwrap : (s.pc + 1) % M16 ≠ 0)
    (hww : (memOf s s.mode).imem s.pc = 0xFFFD) :
    illegalFrame s := by
  unfold illegalFrame
  simp only [afterCycle, fetch_eq s hex hp hwrap, hww, decode]
  simp only [show decide (bits 0xFFFD 15 3 = 0x1FFF) = true from by decide,
    show sxtImm 0xFFFD = 0 from by decide,
    show bits 0xFFFD 2 0 = 5 from by decide,
    Bool.not_true, Bool.not_false, Bool.false_and, Bool.and_false,
    Bool.true_and, Bool.and_true]
  rw [execute_vop]
  rw [xVop_eq_brk]
  rw [xBrk_user]
  rw [memoryStage_ex _ (by decide : (ExIllegal : Nat) ≠ 0),
      writebackStage_ex _ (by decide : (ExIllegal : Nat) ≠ 0)]
  refine ⟨rfl, rfl, rfl, rfl, rfl, rfl, rfl⟩
  all_goals first
    | rfl
    | (dsimp only; rfl)
    | exact hm
    | (dsimp only; exact hm)
    | omega
    | (dsimp only; omega)

lemma upi_lsp (s : Y4Machine) (b a : Nat)
    (hm : s.mode = 0) (hex : s.ex = 0) (hp : s.panicked = false)
    (hwrap : (s.pc + 1) % M16 ≠ 0) (hb : b < 8) (ha : a < 8)
    (hww : (memOf s s.mode).imem s.pc = 0xFE00 + 64 * 0 + 8 * b + a)
    (hr : privSprIndex (s.regUser.gen b % 64)) :
    illegalFrame s := by
  have hmm : s.regUser.gen b % M16 % 64 = s.regUser.gen b % 64 :=
    Nat.mod_mod_of_dvd _ ⟨1024, rfl⟩
  obtain ⟨h1, h2, h3, h4, h5, h6, h7, h8⟩ := yop_shape 0 b a (by omega) hb ha
  have hsx := sxtImm_yop 0 b a (by omega) hb ha
  have hv2 : decide (bits (0xFE00 + 64 * 0 + 8 * b + a) 15 3 = 0x1FFF) = false :=
    decide_eq_false h2
  have hv3 : decide (bits (0xFE00 + 64 * 0 + 8 * b + a) 15 6 = 0x03FF) = false :=
    decide_eq_false h3
  have hv4 : decide (bits (0xFE00 + 64 * 0 + 8 * b + a) 15 9 = 0x007F) = true := by
    rw [h4]
    decide
  unfold illegalFrame
  simp only [afterCycle, fetch_eq s hex hp hwrap, hww, decode]
  simp only [h1, h5, h6, h7, h8, hsx, hv2, hv3, hv4,
    Bool.not_false, Bool.and_self, Bool.true_and, Bool.and_true, Bool.false_and,
    Bool.and_false, Bool.not_true]
  simp only [execute, hex]
  try dsimp only
  norm_num
  simp only [xYop]
  norm_num
  simp only [xAddr, regOf, hm]
  norm_num
  rw [memoryStage_lsp]
  rw [loadSpecial_user_illegal]
  rw [writebackStage_ex _ (by decide : (ExIllegal : Nat) ≠ 0)]
  refine ⟨rfl, rfl, rfl, rfl, rfl, rfl, rfl⟩
  all_goals first
    | rfl
    | exact hex
    | exact hm
    | (dsimp only; rw [hmm]; exact hr)
    | omega
    | (dsimp only; omega)
    | decide

lemma upi_ssp (s : Y4Machine) (b a : Nat)
    (hm : s.mode = 0) (hex : s.ex = 0) (hp : s.panicked = false)
    (hwrap : (s.pc + 1) % M16 ≠ 0) (hb : b < 8) (ha : a < 8)
    (hww : (memOf s s.mode).imem s.pc = 0xFE00 + 64 * 2 + 8 * b + a)
    (hr : privSprIndex (s.regUser.gen b % 64)) :
    illegalFrame s := by
  have hmm : s.regUser.gen b % M16 % 64 = s.regUser.gen b % 64 :=
    Nat.mod_mod_of_dvd _ ⟨1024, rfl⟩
  obtain ⟨h1, h2, h3, h4, h5, h6, h7, h8⟩ := yop_shape 2 b a (by omega) hb ha
  have hsx := sxtImm_yop 2 b a (by omega) hb ha
  have hv2 : decide (bits (0xFE00 + 64 * 2 + 8 * b + a) 15 3 = 0x1FFF) = false :=
    decide_eq_false h2
  have hv3 : decide (bits (0xFE00 + 64 * 2 + 8 * b + a) 15 6 = 0x03FF) = false :=
    decide_eq_false h3
  have hv4 : decide (bits (0xFE00 + 64 * 2 + 8 * b + a) 15 9 = 0x007F) = true := by
    rw [h4]
    decide
  unfold illegalFrame
  simp only [afterCycle, fetch_eq s hex hp hwrap, hww, decode]
  simp only [h1, h5, h6, h7, h8, hsx, hv2, hv3, hv4,
    Bool.not_false, Bool.and_self, Bool.true_and, Bool.and_true, Bool.false_and,
    Bool.and_false, Bool.not_true]
  simp only [execute, hex]
  try dsimp only
  norm_num
  simp only [xYop]
  norm_num
  simp only [xAddr, regOf, hm]
  norm_num
  rw [memoryStage_ssp]
  rw [storeSpecial_user_illegal]
  rw [writebackStage_ex _ (by decide : (ExIllegal : Nat) ≠ 0)]
  refine ⟨rfl, rfl, rfl, rfl, rfl, rfl, rfl⟩
  all_goals first
    | rfl
    | exact hex
    | exact hm
    | (dsimp only; rw [hmm]; exact hr)
    | omega
    | (dsimp only; omega)
    | decide

/-- C2: in user mode, executing any of the privileged opcodes rti, di,
ei, hlt, brk, or an lsp/ssp access whose target SPR is Irr, Icr, Imr,
or an MMU register (32..63), sets the exception latch to ExIllegal in
the same cycle and leaves every general register, every SPR, every
memory byte, and the mode and interrupt-enable flags unchanged. -/
theorem user_privileged_illegal (s : Y4Machine)
    (hm : s.mode = 0) (hex : s.ex = 0) (hp : s.panicked = false)
    (hwrap : (s.pc + 1) % M16 ≠ 0)
    (hw : ((memOf s s.mode).imem s.pc = 0xFFF8 ∨
           (memOf s s.mode).imem s.pc = 0xFFFA ∨
           (memOf s s.mode).imem s.pc = 0xFFFB ∨
           (memOf s s.mode).imem s.pc = 0xFFFC ∨
           (memOf s s.mode).imem s.pc = 0xFFFD) ∨
          (∃ y b a, (y = 0 ∨ y = 2) ∧ b < 8 ∧ a < 8 ∧
            (memOf s s.mode).imem s.pc = 0xFE00 + 64 * y + 8 * b + a ∧
            privSprIndex (s.regUser.gen b % 64))) :
    illegalFrame s := by
  rcases hw with (hww | hww | hww | hww | hww) | ⟨y, b, a, hy, hb, ha, hww, hr⟩
  · exact upi_rti s hm hex hp hwrap hww
  · exact upi_di s hm hex hp hwrap hww
  · exact upi_ei s hm hex hp hwrap hww
  · exact upi_hlt s hm hex hp hwrap hww
  · exact upi_brk s hm hex hp hwrap hww
  · rcases hy with rfl | rfl
    · exact upi_lsp s b a hm hex hp hwrap hb ha hww hr
    · exact upi_ssp s b a hm hex hp hwrap hb ha hww hr

end Y4

namespace Y4

/-- Concrete user-mode state whose next instruction is the privileged
word 0xFFFA (di), used to witness the C2 theorem. -/
def c2state : Y4Machine :=
  { initMachine with
    mode := 0
    memUser := { zeroMem with imem := upd zeroMem.imem 0 0xFFFA } }

/-- Witness for C2: the user-mode di instruction at pc 0 of c2state
raises ExIllegal and leaves all other architectural state unchanged. -/
theorem user_privileged_illegal_witness :
    c2state.mode = 0 ∧ illegalFrame c2state :=
  ⟨rfl, user_privileged_illegal c2state rfl rfl rfl (by decide)
     (Or.inl (Or.inr (Or.inl (by decide))))⟩

end Y4

namespace Y4

lemma upd_at (f : Nat → Nat) (i v : Nat) : upd f i v i = v := by
  unfold upd
  rw [if_pos rfl]

lemma upd_ne (f : Nat → Nat) (i v j : Nat) (h : j ≠ i) : upd f i v j = f j := by
  unfold upd
  rw [if_neg h]

lemma memOf_dmemSet (t : Y4Machine) (m i v : Nat) :
    (memOf (dmemSet t m i v) m).dmem = upd (memOf t m).dmem i v := by
  unfold memOf dmemSet
  by_cases h : m = 0
  · rw [if_pos h, if_pos h, if_pos h]
  · rw [if_neg h, if_neg h, if_neg h]

lemma dmemSet_mode (t : Y4Machine) (m i v : Nat) :
    (dmemSet t m i v).mode = t.mode := by
  unfold dmemSet
  by_cases h : m = 0
  · rw [if_pos h]
  · rw [if_neg h]

lemma dmemSet_alu (t : Y4Machine) (m i v : Nat) :
    (dmemSet t m i v).alu = t.alu := by
  unfold dmemSet
  by_cases h : m = 0
  · rw [if_pos h]
  · rw [if_neg h]

lemma dmemSet_sd (t : Y4Machine) (m i v : Nat) :
    (dmemSet t m i v).sd = t.sd := by
  unfold dmemSet
  by_cases h : m = 0
  · rw [if_pos h]
  · rw [if_neg h]

lemma dmemSet_ex (t : Y4Machine) (m i v : Nat) :
    (dmemSet t m i v).ex = t.ex := by
  unfold dmemSet
  by_cases h : m = 0
  · rw [if_pos h]
  · rw [if_neg h]

/-- Initial state for the C4 counterexample: user mode, a stw
instruction (word 0x4000, all fields zero) at pc 0, the user data-MMU
register SPR[48] mapping page 0 to physical page 0xFFF (so translation
of data address 0 yields a physical address far beyond physical
memory), and the data byte at address 0 holding 0xAB. -/
def c4state : Y4Machine :=
  { initMachine with
    mode := 0
    regUser := { zeroReg with spr := upd zeroReg.spr 48 0xFFF }
    memUser := { zeroMem with
                 imem := upd zeroMem.imem 0 0x4000
                 dmem := upd zeroMem.dmem 0 0xAB } }

/-- The machine state of the C4 counterexample cycle as it enters the
memory stage. -/
def c4mstate : Y4Machine := execute (decode (fetch c4state))

/-- C4 counterexample: the cycle at c4state executes stw with data
address 0; translating that address through the current (user) mode's
data MMU yields ExMemory, yet the store modifies physical data memory
(byte 0 changes from 0xAB to 0) and the cycle ends with no exception:
the memory stage never calls translate. -/
theorem memory_ignores_translate_counterexample :
    (memOf c4state c4state.mode).imem c4state.pc = 0x4000 ∧
    bits 0x4000 15 13 = 2 ∧
    c4mstate.alu = 0 ∧
    (translateM c4mstate true c4mstate.alu).1 = ExMemory ∧
    (memOf c4state c4state.mode).dmem 0 = 0xAB ∧
    (memOf (afterCycle c4state) (afterCycle c4state).mode).dmem 0 = 0 ∧
    (afterCycle c4state).ex = 0 := by
  decide

/-- C4: what the memory stage actually does for loads and stores
(amended).  Even when translating alu as a data address through the
current mode's MMU returns ExMemory, the stage reads and writes the
current mode's data memory at the raw (untranslated) alu address:
loads place the raw-address bytes in wb, stores deposit the store
data at the raw address, and no exception is raised. -/
theorem memory_ignores_translate (s : Y4Machine) (hex : s.ex = 0)
    (hop : s.op < 4) (hmem : (translateM s true s.alu).1 = ExMemory) :
    (s.op = 0 → (memoryStage s).wb = ((memOf s s.mode).dmem s.alu |||
        (((memOf s s.mode).dmem ((s.alu + 1) % M16)) <<< 8)) % M16) ∧
    (s.op = 1 → (memoryStage s).wb = (memOf s s.mode).dmem s.alu) ∧
    (s.op = 2 → (memOf (memoryStage s) s.mode).dmem s.alu = s.sd &&& 0x00FF) ∧
    (s.op = 3 → (memOf (memoryStage s) s.mode).dmem s.alu = s.sd % 256) ∧
    (memoryStage s).ex = 0 := by
  unfold memoryStage
  rw [if_neg (show ¬ s.ex ≠ 0 by omega)]
  dsimp only
  rw [if_pos hop]
  refine ⟨?_, ?_, ?_, ?_, ?_⟩
  · intro h0
    rw [if_pos h0]
    rfl
  · intro h1
    rw [if_neg (by omega), if_pos h1]
    rfl
  · intro h2
    rw [if_neg (by omega), if_neg (by omega), if_pos h2]
    rw [dmemSet_mode, memOf_dmemSet, upd_ne, memOf_dmemSet, upd_at]
    rw [dmemSet_alu]
    dsimp only
    have hM : M16 = 65536 := rfl
    rw [hM]
    omega
  · intro h3
    rw [if_neg (by omega), if_neg (by omega), if_neg (by omega)]
    rw [memOf_dmemSet, upd_at]
  · by_cases h0 : s.op = 0
    · rw [if_pos h0]
      exact hex
    · rw [if_neg h0]
      by_cases h1 : s.op = 1
      · rw [if_pos h1]
        exact hex
      · rw [if_neg h1]
        by_cases h2 : s.op = 2
        · rw [if_pos h2, dmemSet_ex, dmemSet_ex]
          exact hex
        · rw [if_neg h2, dmemSet_ex]
          exact hex

/-- Witness for C4's amended theorem at the concrete counterexample
cycle: the stw at c4state deposits its (zero) store data at the raw
data address 0 and raises no exception despite the failing
translation. -/
theorem memory_ignores_translate_witness :
    (memOf (memoryStage c4mstate) c4mstate.mode).dmem c4mstate.alu =
      c4mstate.sd &&& 0x00FF ∧
    (memoryStage c4mstate).ex = 0 :=
  ⟨(memory_ignores_translate c4mstate (by decide) (by decide)
      (by decide)).2.2.1 (by decide),
   (memory_ignores_translate c4mstate (by decide) (by decide)
      (by decide)).2.2.2.2⟩

end Y4
